import Mathlib

/-!
# Verification of the rockauto-api caching and parsing layer

A shallow embedding of the caching and parsing layer of the `rockauto-api`
Python package, together with proofs of the behavioural properties stated
in its specification.

Modelling conventions, used throughout:

* `datetime` values are modelled as natural-number timestamps measured in
  microseconds (the resolution of Python's `datetime`); `datetime.min` is the
  least timestamp and is modelled as `0`.  `timedelta(hours=h)` is `h`
  converted to microseconds.  Subtraction of datetimes yields a signed
  `timedelta`, so differences are computed in `ℤ`.
* `datetime.now()` is impure in Python; every operation that reads the clock
  takes the current time `now` as an explicit extra argument.
* Python `dict`s (which preserve insertion order) are modelled as association
  lists `List (String × β)`: lookup takes the first binding, assignment of an
  existing key replaces the binding in place, assignment of a fresh key
  appends, and `del` removes the (unique) binding.
* Strings are ASCII, as all strings handled by this code are; `str.lower`,
  `str.upper`, `str.strip` are modelled character-wise.
-/

/-- Python `timedelta(hours=h)` expressed in microseconds. -/
def timedeltaHours (h : ℤ) : ℤ := h * 3600000000

/-- Python's `\s` character class (ASCII). -/
def pyIsSpace (c : Char) : Bool :=
  c = ' ' || c = '\t' || c = '\n' || c = '\r' || c = '\x0b' || c = '\x0c'

/-- Python `str.strip()` on a list of characters. -/
def pyStripList (l : List Char) : List Char :=
  ((l.dropWhile pyIsSpace).reverse.dropWhile pyIsSpace).reverse

/-- Python `str.strip()`. -/
def pyStrip (s : String) : String := ⟨pyStripList s.data⟩

/-- Python `str.strip(chars)`: strip any of the given characters from both ends. -/
def pyStripChars (cs : List Char) (s : String) : String :=
  ⟨((s.data.dropWhile (cs.contains ·)).reverse.dropWhile (cs.contains ·)).reverse⟩

/-- Python `str.lower()` (ASCII). -/
def pyLower (s : String) : String := ⟨s.data.map Char.toLower⟩

/-- Python `str.upper()` (ASCII). -/
def pyUpper (s : String) : String := ⟨s.data.map Char.toUpper⟩

/-- Python `sub in s` on lists of characters (`"" in s` is true). -/
def listContainsSub (sub : List Char) : List Char → Bool
  | [] => sub.isPrefixOf []
  | c :: rest => sub.isPrefixOf (c :: rest) || listContainsSub sub rest

/-- Python `sub in s` for strings. -/
def pyContains (s sub : String) : Bool := listContainsSub sub.data s.data

/-- Python `s[i:]` for an arbitrary (possibly negative) integer `i`:
a negative start counts from the end and is clamped at `0`. -/
def pySliceFrom (i : ℤ) (l : List α) : List α :=
  if 0 ≤ i then l.drop i.toNat else l.drop (l.length - (-i).toNat)

/-- Lookup in a Python dict modelled as an association list (`d.get(k)`). -/
def pyDictGet (d : List (String × β)) (k : String) : Option β :=
  (d.find? (fun kv => kv.1 = k)).map (·.2)

/-- Python `d[k] = v`: replace the binding in place if the key is present,
otherwise append the new binding (dicts preserve insertion order). -/
def pyDictSet (d : List (String × β)) (k : String) (v : β) : List (String × β) :=
  match d with
  | [] => [(k, v)]
  | kv :: rest => if kv.1 = k then (k, v) :: rest else kv :: pyDictSet rest k v

/-- Python `del d[k]`: remove the (first, hence unique) binding for `k`. -/
def pyDictDel (d : List (String × β)) (k : String) : List (String × β) :=
  d.eraseP (fun kv => kv.1 = k)

/-- The keys of a modelled dict. -/
def dictKeys (d : List (String × β)) : List String := d.map Prod.fst


/-! ## `price_info.py` -/

/-- `PriceStockSnapshot` (`models/price_info.py`).  Immutable price/stock
observation; `time_collected` is a timestamp as in the conventions above. -/
structure PriceStockSnapshot where
  price : Option String := none
  availability : Option String := none
  stock_level : Option String := none
  shipping_info : Option String := none
  sale_info : Option String := none
  time_collected : ℕ
  source_url : Option String := none
deriving Repr, DecidableEq

/-- `PriceInfo` (`models/price_info.py`): per-part price history.
`max_history_entries` is a Python `int`, hence `ℤ`. -/
structure PriceInfo where
  part_number : String
  current_snapshot : Option PriceStockSnapshot := none
  price_history : List PriceStockSnapshot := []
  max_history_entries : ℤ := 50
deriving Repr, DecidableEq

namespace PriceInfo

/-- `PriceInfo.add_snapshot`: set `current_snapshot`, append to
`price_history`, and when the history exceeds `max_history_entries` keep
`price_history[-max_history_entries:]` (Python slice semantics, including
the `[-0:]` case which keeps the whole list). -/
def add_snapshot (p : PriceInfo) (s : PriceStockSnapshot) : PriceInfo :=
  let h := p.price_history ++ [s]
  { p with
    current_snapshot := some s
    price_history :=
      if (h.length : ℤ) > p.max_history_entries then
        pySliceFrom (-p.max_history_entries) h
      else h }

/-- A finite sequence of `add_snapshot` calls. -/
def addAll (p : PriceInfo) (l : List PriceStockSnapshot) : PriceInfo :=
  l.foldl add_snapshot p

end PriceInfo


/-! ## `part_cache.py` -/

/-- `PartInfo` (`models/part_info.py`): static part information. -/
structure PartInfo where
  name : String
  part_number : String
  brand : Option String := none
  url : Option String := none
  image_url : Option String := none
  info_url : Option String := none
  video_url : Option String := none
  category : Option String := none
  specifications : Option String := none
  compatibility_notes : Option String := none
deriving Repr, DecidableEq

/-- `VehiclePartsResult` (`models/vehicle_parts_result.py`): the result
envelope pairing the query parameters with the parts list and its count. -/
structure VehiclePartsResult where
  make : String
  year : ℤ
  model : String
  carcode : String
  category : String
  parts : List PartInfo
  count : ℕ
deriving Repr, DecidableEq

/-- `CachedPartInfo` (`models/part_cache.py`). -/
structure CachedPartInfo where
  part_info : PartInfo
  cached_at : ℕ
  access_count : ℤ := 1
  last_accessed : ℕ
deriving Repr, DecidableEq

namespace CachedPartInfo

/-- `CachedPartInfo.create`: wrap a part, stamping both times with `now`. -/
def create (part_info : PartInfo) (now : ℕ) : CachedPartInfo :=
  { part_info := part_info, cached_at := now, last_accessed := now }

/-- `CachedPartInfo.is_expired`:
`datetime.now() - self.cached_at > timedelta(hours=ttl_hours)`. -/
def is_expired (e : CachedPartInfo) (now : ℕ) (ttl_hours : ℤ := 12) : Bool :=
  (now : ℤ) - (e.cached_at : ℤ) > timedeltaHours ttl_hours

/-- `CachedPartInfo.access`: bump the access count, refresh `last_accessed`,
and return the wrapped part together with the updated entry. -/
def access (e : CachedPartInfo) (now : ℕ) : PartInfo × CachedPartInfo :=
  (e.part_info, { e with access_count := e.access_count + 1, last_accessed := now })

end CachedPartInfo

/-- `CachedVehiclePartsResult` (`models/part_cache.py`). -/
structure CachedVehiclePartsResult where
  result : VehiclePartsResult
  cache_key : String
  cached_at : ℕ
  access_count : ℤ := 1
  last_accessed : ℕ
deriving Repr, DecidableEq

namespace CachedVehiclePartsResult

/-- `CachedVehiclePartsResult.create`. -/
def create (result : VehiclePartsResult) (cache_key : String) (now : ℕ) :
    CachedVehiclePartsResult :=
  { result := result, cache_key := cache_key, cached_at := now, last_accessed := now }

/-- `CachedVehiclePartsResult.is_expired`. -/
def is_expired (e : CachedVehiclePartsResult) (now : ℕ) (ttl_hours : ℤ := 12) : Bool :=
  (now : ℤ) - (e.cached_at : ℤ) > timedeltaHours ttl_hours

/-- `CachedVehiclePartsResult.access`. -/
def access (e : CachedVehiclePartsResult) (now : ℕ) :
    VehiclePartsResult × CachedVehiclePartsResult :=
  (e.result, { e with access_count := e.access_count + 1, last_accessed := now })

end CachedVehiclePartsResult

/-- `PartCache` (`models/part_cache.py`): in-memory cache for parts and
vehicle part search results.  The `max_*` bounds are Python `int`s. -/
structure PartCache where
  parts : List (String × CachedPartInfo) := []
  vehicle_results : List (String × CachedVehiclePartsResult) := []
  max_parts : ℤ := 1000
  max_results : ℤ := 100
deriving Repr, DecidableEq

namespace PartCache

/-- `PartCache.get_part`: return the cached part and bump its access
metadata if present and unexpired; lazily delete it if present but expired.
Returns the result together with the updated cache. -/
def get_part (c : PartCache) (part_number : String) (now : ℕ) :
    Option PartInfo × PartCache :=
  match pyDictGet c.parts part_number with
  | some cached_part =>
      if ¬ cached_part.is_expired now then
        let (info, e) := cached_part.access now
        (some info, { c with parts := pyDictSet c.parts part_number e })
      else
        (none, { c with parts := pyDictDel c.parts part_number })
  | none => (none, c)

/-- `PartCache._evict_oldest_part`: drop the entry whose `last_accessed` is
minimal (Python `min` returns the first minimum in iteration order). -/
def _evict_oldest_part (c : PartCache) : PartCache :=
  match c.parts.argmin (fun kv => kv.2.last_accessed) with
  | some kv => { c with parts := pyDictDel c.parts kv.1 }
  | none => c

/-- `PartCache.cache_part`: evict the oldest entry when at capacity, then
store the freshly wrapped part under its part number. -/
def cache_part (c : PartCache) (part_info : PartInfo) (now : ℕ) : PartCache :=
  let c := if (c.parts.length : ℤ) ≥ c.max_parts then c._evict_oldest_part else c
  { c with parts := pyDictSet c.parts part_info.part_number (CachedPartInfo.create part_info now) }

/-- `PartCache.get_vehicle_result`: as `get_part` but for result envelopes. -/
def get_vehicle_result (c : PartCache) (cache_key : String) (now : ℕ) :
    Option VehiclePartsResult × PartCache :=
  match pyDictGet c.vehicle_results cache_key with
  | some cached_result =>
      if ¬ cached_result.is_expired now then
        let (res, e) := cached_result.access now
        (some res, { c with vehicle_results := pyDictSet c.vehicle_results cache_key e })
      else
        (none, { c with vehicle_results := pyDictDel c.vehicle_results cache_key })
  | none => (none, c)

/-- `PartCache._evict_oldest_result`. -/
def _evict_oldest_result (c : PartCache) : PartCache :=
  match c.vehicle_results.argmin (fun kv => kv.2.last_accessed) with
  | some kv => { c with vehicle_results := pyDictDel c.vehicle_results kv.1 }
  | none => c

/-- `PartCache.cache_vehicle_result`. -/
def cache_vehicle_result (c : PartCache) (result : VehiclePartsResult)
    (cache_key : String) (now : ℕ) : PartCache :=
  let c := if (c.vehicle_results.length : ℤ) ≥ c.max_results then c._evict_oldest_result else c
  let entry := CachedVehiclePartsResult.create result cache_key now
  { c with vehicle_results := pyDictSet c.vehicle_results cache_key entry }

/-- The `if engine: key_parts.append(engine.lower())` step of
`generate_vehicle_cache_key`: an absent or empty (falsy) optional argument
contributes nothing, a non-empty one its lower-cased text. -/
def optKeyPart (o : Option String) : List String :=
  match o with
  | some s => if s ≠ "" then [pyLower s] else []
  | none => []

/-- `PartCache.generate_vehicle_cache_key`: lower-case make, model and the
optional engine and category — but not the year — and pipe-join. -/
def generate_vehicle_cache_key (make model year : String)
    (engine : Option String := none) (category : Option String := none) : String :=
  String.intercalate "|"
    ([pyLower make, pyLower model, year] ++ optKeyPart engine ++ optKeyPart category)

end PartCache

/-! ## `enhanced_cache.py` — the volatile pricing cache -/

/-- `PriceInfo.has_recent_data` /
`PriceStockSnapshot.is_recent(max_age_minutes)`:
`(now - time_collected).total_seconds() < max_age_minutes * 60`. -/
def PriceInfo.has_recent_data (p : PriceInfo) (now : ℕ) (max_age_minutes : ℤ) : Bool :=
  match p.current_snapshot with
  | some s => (now : ℤ) - (s.time_collected : ℤ) < max_age_minutes * 60 * 1000000
  | none => false

/-- The eviction sort key of `PricingCache._evict_old_entries`:
`x[1].current_snapshot.time_collected if x[1].current_snapshot else datetime.min`
(`datetime.min` is the least timestamp, modelled as `0`). -/
def evictionKey (p : PriceInfo) : ℕ :=
  match p.current_snapshot with
  | some s => s.time_collected
  | none => 0

/-- The comparison used by `sorted(...)` on the eviction key.  Python's
`sorted` is stable; `List.insertionSort` with this relation is the standard
stable model of it (equal keys keep their original relative order). -/
def evictionLE (a b : String × PriceInfo) : Prop :=
  evictionKey a.2 ≤ evictionKey b.2

instance : DecidableRel evictionLE := fun a b =>
  inferInstanceAs (Decidable (evictionKey a.2 ≤ evictionKey b.2))

instance : IsTotal (String × PriceInfo) evictionLE :=
  ⟨fun a b => Nat.le_total (evictionKey a.2) (evictionKey b.2)⟩

instance : IsTrans (String × PriceInfo) evictionLE :=
  ⟨fun _ _ _ h h' => Nat.le_trans h h'⟩

/-- `PricingCache` (`models/enhanced_cache.py`): volatile pricing cache,
keyed by part number, capacity-bounded. -/
structure PricingCache where
  pricing_data : List (String × PriceInfo) := []
  max_entries : ℤ := 5000
  ttl_minutes : ℤ := 30
deriving Repr

namespace PricingCache

/-- `PricingCache._evict_old_entries`: stably sort the entries by
last-collection time and delete the oldest `max(1, n // 5)` of them
(`del self.pricing_data[part_number]` for each removed key; with unique
dict keys this equals filtering those keys out). -/
def _evict_old_entries (c : PricingCache) : PricingCache :=
  let sorted_items := c.pricing_data.insertionSort evictionLE
  let entries_to_remove := max 1 (c.pricing_data.length / 5)
  let removed := (sorted_items.take entries_to_remove).map Prod.fst
  { c with pricing_data := c.pricing_data.filter (fun kv => ¬ removed.contains kv.1) }

/-- `PricingCache.cache_pricing`: store the entry, then batch-evict when the
entry count exceeds `max_entries`. -/
def cache_pricing (c : PricingCache) (part_number : String) (price_info : PriceInfo) :
    PricingCache :=
  let c := { c with pricing_data := pyDictSet c.pricing_data part_number price_info }
  if (c.pricing_data.length : ℤ) > c.max_entries then c._evict_old_entries else c

/-- `PricingCache.get_pricing`: return unexpired pricing, lazily deleting an
expired entry. -/
def get_pricing (c : PricingCache) (part_number : String) (now : ℕ) :
    Option PriceInfo × PricingCache :=
  match pyDictGet c.pricing_data part_number with
  | some price_info =>
      if price_info.has_recent_data now c.ttl_minutes then (some price_info, c)
      else (none, { c with pricing_data := pyDictDel c.pricing_data part_number })
  | none => (none, c)

end PricingCache

/-! ## `utils/parsers.py` — `PartExtractor`

The extraction heuristics are ordered `re.search` chains over the element
text.  Each concrete pattern of the source is embedded as a dedicated search
function implementing Python `re.search` semantics for that pattern
(leftmost start position, greedy quantifiers with backtracking, `\b` word
boundaries, `re.IGNORECASE` where the source passes it). -/

/-- Python `\w` (ASCII): the word characters used by `\b`. -/
def isWordChar (c : Char) : Bool := c.isAlphanum || c = '_'

/-- The character class `[A-Z0-9\-]` under `re.IGNORECASE`
(case folding makes `[A-Z]` match all letters). -/
def classPNci (c : Char) : Bool := c.isAlpha || c.isDigit || c = '-'

/-- The character class `[A-Z0-9\-]` without `IGNORECASE`
(used by `extract_from_table_row`). -/
def classPNcs (c : Char) : Bool := c.isUpper || c.isDigit || c = '-'

/-- Case-insensitive literal prefix test. -/
def ciIsPrefix (pat l : List Char) : Bool :=
  (pat.map Char.toLower).isPrefixOf (l.map Char.toLower)

/-- Is position `i` of `l` preceded/followed so that `\b` holds there?
(`j ≥ 1`: the boundary between characters `j-1` and `j`.) -/
def boundaryAfter (l : List Char) (j : ℕ) : Bool :=
  let left := match l.get? (j - 1) with | some c => isWordChar c | none => false
  let right := match l.get? j with | some c => isWordChar c | none => false
  left != right

/-- Greedy backtracking for a trailing `\b`: the largest `j` with
`k ≤ j ≤ jmax` such that `\b` holds after the first `j` characters. -/
def greedyEnd (l : List Char) (k : ℕ) : ℕ → Option ℕ
  | 0 => none
  | j + 1 =>
    if j + 1 < k then none
    else if boundaryAfter l (j + 1) then some (j + 1)
    else greedyEnd l k j

/-- Generic scanner for `re.search`: try the position matcher at every start
position from the left, tracking whether the previous character was a word
character (for `\b` at the match start). -/
def scanSearch (m : Bool → List Char → Option (List Char)) :
    Bool → List Char → Option (List Char)
  | prev, [] => m prev []
  | prev, c :: rest =>
    match m prev (c :: rest) with
    | some g => some g
    | none => scanSearch m (isWordChar c) rest

/-- Position matcher for `\b([cls]{k,})\b`. -/
def tokenMatchAt (cls : Char → Bool) (k : ℕ) (prevWord : Bool) (l : List Char) :
    Option (List Char) :=
  let curWord := match l.head? with | some c => isWordChar c | none => false
  if prevWord == curWord then none
  else
    let run := l.takeWhile cls
    match greedyEnd l k run.length with
    | some j => some (l.take j)
    | none => none

/-- `re.search(r"\b([cls]{k,})\b", s)`. -/
def searchToken (cls : Char → Bool) (k : ℕ) (l : List Char) : Option (List Char) :=
  scanSearch (tokenMatchAt cls k) false l

/-- Position matcher for `\b([A-Z]{2,}[0-9]{3,}[A-Z0-9\-]*)\b` with
`IGNORECASE`.  The letter and digit runs are maximal (the following
required class is disjoint, so the engine cannot profitably give
characters back); the match end backtracks from the greedy maximum down to
the minimal length for the trailing `\b`. -/
def p2MatchAt (prevWord : Bool) (l : List Char) : Option (List Char) :=
  let curWord := match l.head? with | some c => isWordChar c | none => false
  if prevWord == curWord then none
  else
    let letters := l.takeWhile Char.isAlpha
    if letters.length < 2 then none
    else
      let rest1 := l.drop letters.length
      let digits := rest1.takeWhile Char.isDigit
      if digits.length < 3 then none
      else
        let rest2 := rest1.drop digits.length
        let tail := rest2.takeWhile classPNci
        match greedyEnd l (letters.length + 3) (letters.length + digits.length + tail.length) with
        | some j => some (l.take j)
        | none => none

/-- Position matcher for `\b([0-9]{3,}[A-Z]{2,}[A-Z0-9\-]*)\b` with
`IGNORECASE` (mirror image of `p2MatchAt`). -/
def p3MatchAt (prevWord : Bool) (l : List Char) : Option (List Char) :=
  let curWord := match l.head? with | some c => isWordChar c | none => false
  if prevWord == curWord then none
  else
    let digits := l.takeWhile Char.isDigit
    if digits.length < 3 then none
    else
      let rest1 := l.drop digits.length
      let letters := rest1.takeWhile Char.isAlpha
      if letters.length < 2 then none
      else
        let rest2 := rest1.drop letters.length
        let tail := rest2.takeWhile classPNci
        match greedyEnd l (digits.length + 2) (digits.length + letters.length + tail.length) with
        | some j => some (l.take j)
        | none => none

/-- The suffix part `\s*:?\s*([A-Z0-9\-]{4,})` of `PART_NUMBER_PATTERNS[0]`
(with `IGNORECASE`), applied after one of the literal alternatives. -/
def p1After (rest : List Char) : Option (List Char) :=
  let r1 := rest.dropWhile pyIsSpace
  let r2 := match r1 with | ':' :: t => t | _ => r1
  let r3 := r2.dropWhile pyIsSpace
  let cand := r3.takeWhile classPNci
  if 4 ≤ cand.length then some cand else none

/-- Position matcher for `(?:Part|P/N|PN|#)\s*:?\s*([A-Z0-9\-]{4,})` with
`IGNORECASE`: alternatives are tried in source order at each position. -/
def p1MatchAt (l : List Char) : Option (List Char) :=
  (if ciIsPrefix "Part".data l then p1After (l.drop 4) else none) <|>
  (if ciIsPrefix "P/N".data l then p1After (l.drop 3) else none) <|>
  (if ciIsPrefix "PN".data l then p1After (l.drop 2) else none) <|>
  (if ciIsPrefix "#".data l then p1After (l.drop 1) else none)

/-- The four `PART_NUMBER_PATTERNS` searches, in source order. -/
def partNumberSearches (l : List Char) : List (Option (List Char)) :=
  [ scanSearch (fun _ l2 => p1MatchAt l2) false l
  , scanSearch p2MatchAt false l
  , scanSearch p3MatchAt false l
  , searchToken classPNci 6 l ]

/-- The acceptance filter of `extract_from_element`:
`re.search(r"[0-9]", potential_part) and len(potential_part) >= 4`. -/
def acceptPart (cand : List Char) : Bool :=
  cand.any Char.isDigit && decide (4 ≤ cand.length)

/-- The part-number loop of `extract_from_element`: take the first pattern
whose match passes the digit/length filter; a match failing the filter moves
on to the next pattern; default `"Unknown"`. -/
def pickPartNumber : List (Option (List Char)) → String
  | [] => "Unknown"
  | some cand :: rest => if acceptPart cand then String.mk cand else pickPartNumber rest
  | none :: rest => pickPartNumber rest

/-- Group matcher for the tail `([0-9,]+\.?[0-9]*)` of the price patterns,
starting right after the `$`/`USD` prefix. -/
def priceGroupAt (l : List Char) : Option (List Char) :=
  let run1 := l.takeWhile (fun c => c.isDigit || c = ',')
  if run1.length = 0 then none
  else
    match l.drop run1.length with
    | '.' :: r2 => some (run1 ++ '.' :: r2.takeWhile Char.isDigit)
    | _ => some run1

/-- `re.search(r"\$([0-9,]+\.?[0-9]*)", s)`. -/
def searchPrice1 : List Char → Option (List Char)
  | [] => none
  | '$' :: rest =>
    (match priceGroupAt rest with
     | some g => some g
     | none => searchPrice1 rest)
  | _ :: rest => searchPrice1 rest

/-- `re.search(r"USD\s*([0-9,]+\.?[0-9]*)", s, re.IGNORECASE)`. -/
def searchPrice2 (l : List Char) : Option (List Char) :=
  scanSearch
    (fun _ l2 =>
      if ciIsPrefix "USD".data l2 then priceGroupAt ((l2.drop 3).dropWhile pyIsSpace)
      else none)
    false l

/-- `re.search(r"Price:\s*\$([0-9,]+\.?[0-9]*)", s, re.IGNORECASE)`. -/
def searchPrice3 (l : List Char) : Option (List Char) :=
  scanSearch
    (fun _ l2 =>
      if ciIsPrefix "Price:".data l2 then
        match (l2.drop 6).dropWhile pyIsSpace with
        | '$' :: r2 => priceGroupAt r2
        | _ => none
      else none)
    false l

/-- The `PRICE_PATTERNS` loop of `extract_from_element`: first match wins,
stored as a `$`-prefixed string. -/
def extractPrice (l : List Char) : Option String :=
  match searchPrice1 l with
  | some g => some ("$" ++ String.mk g)
  | none =>
    match searchPrice2 l with
    | some g => some ("$" ++ String.mk g)
    | none => (searchPrice3 l).map (fun g => "$" ++ String.mk g)

/-- The character class `[a-zA-Z\s&]` of `BRAND_PATTERNS[0]`. -/
def brandClass (c : Char) : Bool := c.isAlpha || pyIsSpace c || c = '&'

/-- The suffix `\s*:?\s*([A-Z][a-zA-Z\s&]{2,20})` of `BRAND_PATTERNS[0]`
(with `IGNORECASE`), applied after one of the literal alternatives. -/
def brand1After (rest : List Char) : Option (List Char) :=
  let r1 := rest.dropWhile pyIsSpace
  let r2 := match r1 with | ':' :: t => t | _ => r1
  let r3 := r2.dropWhile pyIsSpace
  match r3 with
  | c :: t =>
    if c.isAlpha then
      let tail := (t.takeWhile brandClass).take 20
      if 2 ≤ tail.length then some (c :: tail) else none
    else none
  | [] => none

/-- Position matcher for
`(?:Brand|Mfg|Manufacturer)\s*:?\s*([A-Z][a-zA-Z\s&]{2,20})` (`IGNORECASE`). -/
def brand1MatchAt (l : List Char) : Option (List Char) :=
  (if ciIsPrefix "Brand".data l then brand1After (l.drop 5) else none) <|>
  (if ciIsPrefix "Mfg".data l then brand1After (l.drop 3) else none) <|>
  (if ciIsPrefix "Manufacturer".data l then brand1After (l.drop 12) else none)

/-- Position matcher for `\b(W1|W2|…)\b` with `IGNORECASE` over a fixed word
list: alternatives tried in list order; the group is the matched text in its
original case. -/
def wordsMatchAt (words : List String) (prevWord : Bool) (l : List Char) :
    Option (List Char) :=
  let curWord := match l.head? with | some c => isWordChar c | none => false
  if prevWord == curWord then none
  else
    words.findSome? fun w =>
      if ciIsPrefix w.data l && boundaryAfter l w.data.length then
        some (l.take w.data.length)
      else none

/-- The OEM brand alternatives of `BRAND_PATTERNS[1]`. -/
def oemBrands : List String :=
  ["HONDA", "TOYOTA", "FORD", "CHEVROLET", "NISSAN", "BMW", "MERCEDES",
   "AUDI", "LEXUS", "ACURA", "INFINITI"]

/-- The aftermarket brand alternatives of `BRAND_PATTERNS[2]`. -/
def aftermarketBrands : List String :=
  ["BOSCH", "DENSO", "NGK", "MOBIL", "CASTROL", "VALVOLINE", "MONROE", "KYB",
   "BILSTEIN", "BREMBO", "ATE", "ZIMMERMANN", "DELPHI", "GATES", "DAYCO",
   "HOLSTEIN", "ULTRA-POWER", "AUTOTECNICA", "FAMOUS"]

/-- Python `str.title()` (ASCII): uppercase a letter after a non-letter,
lowercase the rest. -/
def pyTitleAux : Bool → List Char → List Char
  | _, [] => []
  | prevAlpha, c :: rest =>
    if c.isAlpha then (if prevAlpha then c.toLower else c.toUpper) :: pyTitleAux true rest
    else c :: pyTitleAux false rest

/-- Python `str.title()`. -/
def pyTitle (s : String) : String := ⟨pyTitleAux false s.data⟩

/-- The `BRAND_PATTERNS` loop of `extract_from_element`: first match wins,
then `.title()` is applied to the group. -/
def extractBrand (l : List Char) : Option String :=
  match scanSearch (fun _ l2 => brand1MatchAt l2) false l with
  | some g => some (pyTitle ⟨g⟩)
  | none =>
    match scanSearch (wordsMatchAt oemBrands) false l with
    | some g => some (pyTitle ⟨g⟩)
    | none => (scanSearch (wordsMatchAt aftermarketBrands) false l).map (fun g => pyTitle ⟨g⟩)

/-- `re.sub(r"\$[0-9,]+\.?[0-9]*", "", s)` with explicit fuel (each step
consumes at least one character, so fuel `≥ length` makes the exhaustion
case unreachable; fuel keeps the recursion structural and hence
kernel-evaluable): delete every price match, resuming after it. -/
def subPriceAllFuel : ℕ → List Char → List Char
  | 0, l => l
  | _ + 1, [] => []
  | f + 1, '$' :: rest =>
    (match priceGroupAt rest with
     | some g => subPriceAllFuel f (rest.drop g.length)
     | none => '$' :: subPriceAllFuel f rest)
  | f + 1, c :: rest => c :: subPriceAllFuel f rest

/-- `re.sub(r"\$[0-9,]+\.?[0-9]*", "", s)`. -/
def subPriceAll (l : List Char) : List Char := subPriceAllFuel l.length l

/-- `re.sub(re.escape(lit), "", s, flags=re.IGNORECASE)` for a non-empty
literal `lc :: lrest`, with fuel as in `subPriceAllFuel`: delete every
case-insensitive occurrence, resuming after each match. -/
def ciSubAllFuel (lc : Char) (lrest : List Char) : ℕ → List Char → List Char
  | 0, l => l
  | _ + 1, [] => []
  | f + 1, c :: rest =>
    if ciIsPrefix (lc :: lrest) (c :: rest) then ciSubAllFuel lc lrest f (rest.drop lrest.length)
    else c :: ciSubAllFuel lc lrest f rest

/-- `re.sub(re.escape(lit), "", s, flags=re.IGNORECASE)`.  The literals the
source passes here (an accepted part number, an extracted brand) are never
empty; an empty literal leaves the string unchanged. -/
def ciSubAll (lit : List Char) (l : List Char) : List Char :=
  match lit with
  | [] => l
  | c :: rest => ciSubAllFuel c rest l.length l

/-- `re.sub(r"\s+", " ", s)`: collapse every whitespace run to one space
(tracking whether the previous character was whitespace). -/
def collapseWsAux : Bool → List Char → List Char
  | _, [] => []
  | prevSpace, c :: rest =>
    if pyIsSpace c then
      if prevSpace then collapseWsAux true rest
      else ' ' :: collapseWsAux true rest
    else c :: collapseWsAux false rest

/-- `re.sub(r"\s+", " ", s)`. -/
def collapseWs (l : List Char) : List Char := collapseWsAux false l

namespace PartExtractor

/-- `PartExtractor._clean_name`: strip the extracted price, part number and
brand from the raw text, collapse whitespace, strip and trim punctuation. -/
def _clean_name (text : String) (price : Option String) (part_number : String)
    (brand : Option String) : String :=
  let n := text.data
  let n := if price.isSome then subPriceAll n else n
  let n := if part_number ≠ "Unknown" then ciSubAll part_number.data n else n
  let n := match brand with | some b => ciSubAll b.data n | none => n
  let n := pyStrip ⟨collapseWs n⟩
  pyStripChars [':', '-', '.', ','] n

/-- `PartExtractor._format_url`: resolve an href to an absolute URL against
the fixed base origin; empty href yields absent. -/
def _format_url (href : String) : Option String :=
  if href = "" then none
  else if href.startsWith "http" then some href
  else if href.startsWith "/" then some ("https://www.rockauto.com" ++ href)
  else some ("https://www.rockauto.com/" ++ href)

/-- An HTML element, reduced to what `extract_from_element` reads from it:
its text content and its `href` attribute (default `""`).  The HTML tree
walker is an excluded capability; `get_text(strip=True)` on the element is
modelled by `pyStrip` of its text. -/
structure HtmlElement where
  text : String
  href : String := ""
deriving Repr, DecidableEq

/-- The navigation noise keywords of `extract_from_element`. -/
def navWords : List String := ["show", "hide", "expand", "collapse", "toggle"]

/-- `PartExtractor.extract_from_element`.  The Python body is wrapped in
`try/except: return None`; the embedding is total, so every input yields
`none` or a `PartInfo` — no exception escapes. -/
def extract_from_element (el : HtmlElement) : Option PartInfo :=
  let text := pyStrip el.text
  if text = "" || text.length < 3 then none
  else
    let href := el.href
    if navWords.any (fun w => pyContains (pyLower text) w) then none
    else
      let price := extractPrice text.data
      let part_number := pickPartNumber (partNumberSearches text.data)
      let brand := extractBrand text.data
      let clean_name := _clean_name text price part_number brand
      let full_url := _format_url href
      some
        { name := if clean_name ≠ "" then clean_name else text
          part_number := part_number
          brand := brand
          url := full_url }

/-- `PartExtractor._clean_part_name`: drop the brand, the part number and
the fixed noise words (case-sensitive `str.replace`, stripping after each). -/
def _clean_part_name (name : String) (brand : Option String) (part_number : String) :
    String :=
  let n := match brand with | some b => pyStrip (name.replace b "") | none => name
  let n := if part_number ≠ "Unknown" then pyStrip (n.replace part_number "") else n
  let noise := ["Info", "Fits", "Related Parts", "Intentionally blank"]
  noise.foldl (fun n w => pyStrip (n.replace w "")) n

/-- The URLs `_extract_urls_from_row` pulls out of a table row (product
link, image, info link) — tree-walking is an excluded capability, so the
row is modelled by these extracted values. -/
structure RowUrls where
  url : Option String := none
  image_url : Option String := none
  info_url : Option String := none
deriving Repr, DecidableEq

/-- The fixed brand list of `extract_from_table_row`. -/
def tableBrands : List String :=
  ["DENSO", "BOSCH", "NGK", "HONDA", "TOYOTA", "FORD", "CHEVROLET", "DELPHI",
   "GATES", "DAYCO", "MONROE", "KYB", "BILSTEIN", "BREMBO", "HOLSTEIN",
   "ULTRA-POWER", "AUTOTECNICA", "FAMOUS"]

/-- Python `max(candidates, key=len)`: the first candidate of maximal
length. -/
def pyMaxByLen : List String → String
  | [] => ""
  | x :: rest => rest.foldl (fun acc t => if acc.length < t.length then t else acc) x

/-- `PartExtractor.extract_from_table_row`, on the stripped cell texts
(`cell.get_text(strip=True)`) and the row's extracted URLs.  Scans each
cell independently: price by `PRICE_PATTERNS[0]`; part number by
`re.search(r"\b[A-Z0-9\-]{6,}\b", cell)` (case-sensitive, no digit
requirement) on cells without a `$`; brand by substring against the fixed
list; name from the longest `$`-free cell longer than 5.  Returns a part
only when a price or a non-default part number was found. -/
def extract_from_table_row (cells : List String) (urls : RowUrls) : Option PartInfo :=
  let cell_texts := cells.map pyStrip
  let price := cell_texts.findSome? fun t =>
    (searchPrice1 t.data).map (fun g => "$" ++ String.mk g)
  let part_number :=
    match cell_texts.findSome? (fun t =>
      match searchToken classPNcs 6 t.data with
      | some m => if pyContains t "$" then none else some (String.mk m)
      | none => none) with
    | some pn => pn
    | none => "Unknown"
  let brand := cell_texts.findSome? fun t =>
    tableBrands.find? (fun b => pyContains (pyUpper t) b)
  let name_candidates := cell_texts.filter fun t =>
    t ≠ "" && ¬ pyContains t "$" && decide (5 < t.length)
  let name : Option String :=
    if name_candidates ≠ [] then
      let longest := pyMaxByLen name_candidates
      let clean := _clean_part_name longest brand part_number
      some (if clean ≠ "" then clean else longest)
    else none
  if price.isSome || part_number ≠ "Unknown" then
    some
      { name := name.getD "Unknown Part"
        part_number := part_number
        brand := brand
        url := urls.url
        image_url := urls.image_url
        info_url := urls.info_url }
  else none

end PartExtractor

/-! ## `models/order_status.py` -/

/-- Python `str.isdigit()` restricted to ASCII: non-empty and all digits. -/
def pyIsDigitStr (s : String) : Bool := s ≠ "" && s.data.all Char.isDigit

/-- `OrderItem` (`models/order_status.py`). -/
structure OrderItem where
  part_number : String
  description : String
  brand : String
  quantity : ℤ
  unit_price : String
  total_price : String
  status : String := "Unknown"
  tracking_number : Option String := none
deriving Repr, DecidableEq

/-- `OrderStatus` (`models/order_status.py`), the structured order record
(billing/shipping sub-records and bookkeeping fields included as optional
text, as in the source; the impure `lookup_time`-style defaults are
omitted). -/
structure OrderStatus where
  order_number : String
  order_date : Option String := none
  status : String
  customer_email : Option String := none
  customer_phone : Option String := none
  items : List OrderItem := []
  item_count : ℤ := 0
  notes : Option String := none
  return_eligibility : Bool := false
  last_updated : Option String := none
deriving Repr, DecidableEq

/-- `OrderStatusError` (`models/order_status.py`). -/
structure OrderStatusError where
  error_type : String
  message : String
  order_number : Option String := none
  suggestions : List String := []
deriving Repr, DecidableEq

namespace OrderStatusError

/-- `OrderStatusError.order_not_found`. -/
def order_not_found (order_number : String) : OrderStatusError :=
  { error_type := "ORDER_NOT_FOUND"
    message := "Order " ++ order_number ++ " was not found"
    order_number := some order_number
    suggestions :=
      ["Verify the order number is correct",
       "Check that the email/phone matches the order",
       "Ensure the order was placed with RockAuto"] }

/-- `OrderStatusError.invalid_credentials`. -/
def invalid_credentials (order_number : String) : OrderStatusError :=
  { error_type := "INVALID_CREDENTIALS"
    message := "Email or phone does not match order records"
    order_number := some order_number
    suggestions :=
      ["Verify email address spelling",
       "Try phone number if email doesn't work",
       "Check for alternate email addresses used"] }

/-- `OrderStatusError.system_error`. -/
def system_error (message : String) : OrderStatusError :=
  { error_type := "SYSTEM_ERROR"
    message := message
    suggestions :=
      ["Try again in a few minutes",
       "Clear browser cache and cookies",
       "Contact RockAuto customer service"] }

end OrderStatusError

/-- `OrderStatusResult` (`models/order_status.py`); the impure
`lookup_time` default is omitted. -/
structure OrderStatusResult where
  success : Bool
  order : Option OrderStatus := none
  error : Option OrderStatusError := none
deriving Repr, DecidableEq

/-- `OrderStatusResult.success_result`. -/
def OrderStatusResult.success_result (order : OrderStatus) : OrderStatusResult :=
  { success := true, order := some order }

/-- `OrderStatusResult.error_result`. -/
def OrderStatusResult.error_result (error : OrderStatusError) : OrderStatusResult :=
  { success := false, error := some error }

/-- `OrderLookupRequest` after validation (`models/order_status.py`):
`email_or_phone` is stored stripped. -/
structure OrderLookupRequest where
  email_or_phone : String
  order_number : String
deriving Repr, DecidableEq

/-- The pydantic validators of `OrderLookupRequest`, in field-declaration
order; a failed validator raises (`Except.error`). -/
def validateOrderLookupRequest (email_or_phone order_number : String) :
    Except String OrderLookupRequest :=
  if pyStrip email_or_phone = "" then .error "Email or phone cannot be empty"
  else if 50 < email_or_phone.length then .error "Email or phone cannot exceed 50 characters"
  else if ¬ pyIsDigitStr order_number then .error "Order number must be numeric"
  else if 12 < order_number.length then .error "Order number cannot exceed 12 digits"
  else .ok { email_or_phone := pyStrip email_or_phone, order_number := order_number }


/-! ## `client/client.py` — order-status lookup

The HTTP transport and the HTML tree walker are excluded capabilities, so a
call's environment is a behaviour record: the transport responses (an
`Except` models `raise_for_status`/network failure) and the outcome of each
soup-walking step on the returned page text. -/

/-- Everything the environment decides during one `lookup_order_status`
call. `parseOrder` models `_parse_order_status_response` (which can itself
raise — caught by the wrapper); `errorMessage` models
`_extract_order_error_message`. -/
structure OrderLookupBehaviour where
  getResponse : Except String String
  nck : String → Option String
  postResponse : Except String String
  parseOrder : String → Except String (Option OrderStatus)
  errorMessage : String → String

/-- The `try:` body of `RockAutoClient.lookup_order_status`, also counting
the network calls issued (`GET /orderstatus/`, then the lookup `POST`).
`Except.error` is an exception escaping the body into the `except` clause. -/
def lookup_order_status_run (email_or_phone order_number : String)
    (b : OrderLookupBehaviour) : Except String OrderStatusResult × ℕ :=
  match validateOrderLookupRequest email_or_phone order_number with
  | .error e => (.error e, 0)
  | .ok request =>
    match b.getResponse with
    | .error e => (.error e, 1)
    | .ok page =>
      match b.nck page with
      | none =>
        (.ok (OrderStatusResult.error_result
          (OrderStatusError.system_error
            "Could not find security token on order status page")), 1)
      | some _security_token =>
        match b.postResponse with
        | .error e => (.error e, 2)
        | .ok lookupPage =>
          match b.parseOrder lookupPage with
          | .error e => (.error e, 2)
          | .ok (some order) => (.ok (OrderStatusResult.success_result order), 2)
          | .ok none =>
            let error_message := b.errorMessage lookupPage
            let err :=
              if pyContains (pyLower error_message) "not found" then
                OrderStatusError.order_not_found request.order_number
              else if pyContains (pyLower error_message) "email" ||
                  pyContains (pyLower error_message) "phone" then
                OrderStatusError.invalid_credentials request.order_number
              else
                OrderStatusError.system_error
                  (if error_message ≠ "" then error_message else "Order lookup failed")
            (.ok (OrderStatusResult.error_result err), 2)

/-- `RockAutoClient.lookup_order_status`: the body above wrapped in the
catch-all `except Exception`, which converts any raised exception into a
`SYSTEM_ERROR` result.  Note: the method performs no `is_authenticated`
check — it is an unauthenticated lookup. -/
def lookup_order_status (email_or_phone order_number : String)
    (b : OrderLookupBehaviour) : OrderStatusResult :=
  match (lookup_order_status_run email_or_phone order_number b).1 with
  | .ok r => r
  | .error e =>
    OrderStatusResult.error_result
      (OrderStatusError.system_error ("Order lookup failed: " ++ e))

/-- The number of network requests a `lookup_order_status` call issues. -/
def lookup_order_status_calls (email_or_phone order_number : String)
    (b : OrderLookupBehaviour) : ℕ :=
  (lookup_order_status_run email_or_phone order_number b).2

/-! ## `client/client.py` — authenticated account operations -/

/-- `SavedAddress` (`models/account_activity.py`). -/
structure SavedAddress where
  name : String
  full_name : String
  address_line1 : String
  address_line2 : Option String := none
  city : String
  state : String
  postal_code : String
  country : String := "US"
  phone : Option String := none
  is_default : Bool := false
  address_id : Option String := none
deriving Repr, DecidableEq

/-- `SavedAddressesResult` (`models/account_activity.py`). -/
structure SavedAddressesResult where
  addresses : List SavedAddress := []
  count : ℕ := 0
  has_default : Bool := false
deriving Repr, DecidableEq

/-- `SavedVehicle` (`models/account_activity.py`). -/
structure SavedVehicle where
  year : ℤ
  make : String
  model : String
  engine : Option String := none
  carcode : Option String := none
  display_name : String
  catalog_url : Option String := none
  vehicle_id : Option String := none
deriving Repr, DecidableEq

/-- `SavedVehiclesResult` (`models/account_activity.py`). -/
structure SavedVehiclesResult where
  vehicles : List SavedVehicle := []
  count : ℕ := 0
deriving Repr, DecidableEq

/-- `OrderHistoryFilter` (`models/account_activity.py`) with its defaults. -/
structure OrderHistoryFilter where
  date_range : String := "3 Months"
  vehicle : String := "All"
  part_category : String := "All"
  part_number : Option String := none
deriving Repr, DecidableEq

/-- `OrderHistoryItem` (`models/account_activity.py`). -/
structure OrderHistoryItem where
  order_number : String
  date : String
  status : String
  total : String
  vehicle : Option String := none
  order_url : Option String := none
deriving Repr, DecidableEq

/-- `OrderHistoryResult` (`models/account_activity.py`); the impure
`search_time` default is omitted. -/
structure OrderHistoryResult where
  orders : List OrderHistoryItem := []
  count : ℕ := 0
  filter_applied : OrderHistoryFilter
deriving Repr, DecidableEq

/-- `AccountActivityResult` (`models/account_activity.py`); the impure
`last_updated` default is omitted. -/
structure AccountActivityResult where
  order_history : Option OrderHistoryResult := none
  saved_addresses : Option SavedAddressesResult := none
  saved_vehicles : Option SavedVehiclesResult := none
  has_discount_codes : Bool := false
  has_store_credit : Bool := false
  has_alerts : Bool := false
deriving Repr, DecidableEq

/-- The pydantic validators of `ExternalOrderRequest`
(`models/account_activity.py`), identical in content to those of
`OrderLookupRequest`. -/
def validateExternalOrderRequest (email_or_phone order_number : String) :
    Except String OrderLookupRequest :=
  validateOrderLookupRequest email_or_phone order_number

/-- A scripted transport: the `n`-th network call of the client receives
the `n`-th entry (`Except.error` modelling a network failure or a non-2xx
`raise_for_status`). -/
def Script := List (Except String String)

/-- Issue one network call: consume the next scripted response, advancing
the call counter. -/
def scriptCall (sc : Script) (i : ℕ) : Except String String × ℕ :=
  (List.getD sc i (.error "no scripted response"), i + 1)

/-- The soup-walking steps of the account operations, one oracle function
per extraction pass (the HTML tree walker is an excluded capability). -/
structure AccountParsing where
  savedAddresses : String → List SavedAddress
  savedVehicles : String → List SavedVehicle
  nck : String → Option String
  activityFlags : String → Bool × Bool × Bool
  orderRows : String → List OrderHistoryItem
  orderFallback : String → List OrderHistoryItem

/-- `RockAutoClient.get_saved_addresses`, threading the scripted transport
from call index `i`.  The `is_authenticated` guard is the first statement
of the method, before the `try:` block and before any network call. -/
def get_saved_addresses (is_authenticated : Bool) (sc : Script) (pr : AccountParsing)
    (i : ℕ) : Except String SavedAddressesResult × ℕ :=
  if ¬ is_authenticated then
    (.error "Authentication required for accessing saved addresses", i)
  else
    match scriptCall sc i with
    | (.error e, i1) => (.error ("Failed to get saved addresses: " ++ e), i1)
    | (.ok page, i1) =>
      let addresses := pr.savedAddresses page
      (.ok { addresses := addresses
             count := addresses.length
             has_default := addresses.any (·.is_default) }, i1)

/-- `RockAutoClient.get_saved_vehicles` (same shape, `GET /en/profile/`). -/
def get_saved_vehicles (is_authenticated : Bool) (sc : Script) (pr : AccountParsing)
    (i : ℕ) : Except String SavedVehiclesResult × ℕ :=
  if ¬ is_authenticated then
    (.error "Authentication required for accessing saved vehicles", i)
  else
    match scriptCall sc i with
    | (.error e, i1) => (.error ("Failed to get saved vehicles: " ++ e), i1)
    | (.ok page, i1) =>
      let vehicles := pr.savedVehicles page
      (.ok { vehicles := vehicles, count := vehicles.length }, i1)

/-- `RockAutoClient.get_account_activity`: guard, then the two sub-lookups,
then `GET /en/accountactivity/` and the three section-presence flags. -/
def get_account_activity (is_authenticated : Bool) (sc : Script) (pr : AccountParsing)
    (i : ℕ) : Except String AccountActivityResult × ℕ :=
  if ¬ is_authenticated then
    (.error "Authentication required for account activity", i)
  else
    match get_saved_addresses is_authenticated sc pr i with
    | (.error e, i1) => (.error ("Failed to get account activity: " ++ e), i1)
    | (.ok saved_addresses, i1) =>
      match get_saved_vehicles is_authenticated sc pr i1 with
      | (.error e, i2) => (.error ("Failed to get account activity: " ++ e), i2)
      | (.ok saved_vehicles, i2) =>
        match scriptCall sc i2 with
        | (.error e, i3) => (.error ("Failed to get account activity: " ++ e), i3)
        | (.ok page, i3) =>
          let flags := pr.activityFlags page
          (.ok { saved_addresses := some saved_addresses
                 saved_vehicles := some saved_vehicles
                 has_discount_codes := flags.1
                 has_store_credit := flags.2.1
                 has_alerts := flags.2.2 }, i3)

/-- `RockAutoClient.get_order_history`: guard, default filter,
`GET /en/orderhistory/`, table rows, then the regex fallback when the
table scan found nothing. -/
def get_order_history (is_authenticated : Bool)
    (filter_params : Option OrderHistoryFilter) (sc : Script) (pr : AccountParsing)
    (i : ℕ) : Except String OrderHistoryResult × ℕ :=
  if ¬ is_authenticated then
    (.error "Authentication required for accessing order history", i)
  else
    let filter_params := filter_params.getD {}
    match scriptCall sc i with
    | (.error e, i1) => (.error ("Failed to get order history: " ++ e), i1)
    | (.ok page, i1) =>
      let orders := pr.orderRows page
      let orders := if orders = [] then pr.orderFallback page else orders
      (.ok { orders := orders, count := orders.length,
             filter_applied := filter_params }, i1)

/-- The success/failure indicator scan at the end of
`RockAutoClient.add_external_order`. -/
def addOrderOutcome (response_text : String) : Bool :=
  let rt := pyLower response_text
  let is_success := ["added", "success", "order added"].any (fun w => pyContains rt w)
  let is_failure := ["error", "failed", "not found", "invalid"].any (fun w => pyContains rt w)
  is_success && !is_failure

/-- `RockAutoClient.add_external_order`: guard, validation, token-page
`GET`, form `POST`, indicator scan.  All raises inside the `try:` are
re-wrapped. -/
def add_external_order (is_authenticated : Bool) (email_or_phone order_number : String)
    (sc : Script) (pr : AccountParsing) (i : ℕ) : Except String Bool × ℕ :=
  if ¬ is_authenticated then
    (.error "Authentication required for adding external orders", i)
  else
    match validateExternalOrderRequest email_or_phone order_number with
    | .error e => (.error ("Failed to add external order: " ++ e), i)
    | .ok _request =>
      match scriptCall sc i with
      | (.error e, i1) => (.error ("Failed to add external order: " ++ e), i1)
      | (.ok page, i1) =>
        let _security_token := (pr.nck page).getD ""
        match scriptCall sc i1 with
        | (.error e, i2) => (.error ("Failed to add external order: " ++ e), i2)
        | (.ok add_response, i2) => (.ok (addOrderOutcome add_response), i2)

/-! ## `client/client.py` — `get_parts_by_category` -/

/-- What `_make_api_request("navnode_fetch", …)` plus the two
`soup.find_all` passes produce: `none` when the response carries no
`html_fill_sections`/`navchildren[]` body; otherwise the candidate part
elements and the fallback link elements found in that HTML (tree walking
is an excluded capability). -/
structure CatalogHtml where
  items : List PartExtractor.HtmlElement
  links : List PartExtractor.HtmlElement

/-- The environment of one `get_parts_by_category` call: the API request
either raises or yields the (possibly absent) parsed HTML. -/
structure CatalogBehaviour where
  api : Except String (Option CatalogHtml)

/-- `if self._part_cache and self.cache_config.enabled: self._part_cache.cache_part(part_info)`. -/
def cachePartStep (enabled : Bool) (c? : Option PartCache) (pi : PartInfo) (now : ℕ) :
    Option PartCache :=
  match c? with
  | some c => if enabled then some (c.cache_part pi now) else some c
  | none => none

/-- The primary extraction loop of `get_parts_by_category`: extract each
candidate element, appending hits and caching them as configured. -/
def partsLoop (enabled : Bool) (now : ℕ) (items : List PartExtractor.HtmlElement)
    (st : List PartInfo × Option PartCache) : List PartInfo × Option PartCache :=
  items.foldl
    (fun st item =>
      match PartExtractor.extract_from_element item with
      | some pi => (st.1 ++ [pi], cachePartStep enabled st.2 pi now)
      | none => st)
    st

/-- The fallback link loop of `get_parts_by_category`, deduplicating by
part name against the accumulated list. -/
def linksLoop (enabled : Bool) (now : ℕ) (links : List PartExtractor.HtmlElement)
    (st : List PartInfo × Option PartCache) : List PartInfo × Option PartCache :=
  links.foldl
    (fun st link =>
      match PartExtractor.extract_from_element link with
      | some pi =>
        if (st.1.map (·.name)).contains pi.name then st
        else (st.1 ++ [pi], cachePartStep enabled st.2 pi now)
      | none => st)
    st

/-- The initial cache consultation of `get_parts_by_category`: when a cache
exists and caching is enabled, `get_vehicle_result` is called (which may
lazily delete an expired entry and bumps access metadata on a hit). -/
def catalogLookup (cache : Option PartCache) (enabled : Bool) (key : String) (now : ℕ) :
    Option VehiclePartsResult × Option PartCache :=
  match cache with
  | some c =>
    if enabled then
      let (res, c1) := c.get_vehicle_result key now
      (res, some c1)
    else (none, some c)
  | none => (none, none)

/-- `RockAutoClient.get_parts_by_category`: consult the result cache, then
issue the AJAX request, extract and individually cache parts, build the
result envelope, cache it, and return it; a raise inside the `try:` is
re-wrapped as `"Failed to fetch parts for category: …"`.  Returns the
result (or raised error) together with the final `_part_cache` state. -/
def get_parts_by_category (cache : Option PartCache) (enabled : Bool)
    (make : String) (year : ℤ) (model carcode category_group_name : String)
    (b : CatalogBehaviour) (now : ℕ) :
    Except String VehiclePartsResult × Option PartCache :=
  let key := PartCache.generate_vehicle_cache_key make model (toString year)
    (some carcode) (some category_group_name)
  let (cached_result, cache1) := catalogLookup cache enabled key now
  match cached_result with
  | some r => (.ok r, cache1)
  | none =>
    match b.api with
    | .error e => (.error ("Failed to fetch parts for category: " ++ e), cache1)
    | .ok html? =>
      let st :=
        match html? with
        | some html =>
          let st := partsLoop enabled now html.items ([], cache1)
          if st.1 = [] then linksLoop enabled now html.links st else st
        | none => ([], cache1)
      let vehicle_result : VehiclePartsResult :=
        { make := pyUpper make
          year := year
          model := pyUpper model
          carcode := carcode
          category := category_group_name.replace "+" " "
          parts := st.1
          count := st.1.length }
      let cache2 :=
        match st.2 with
        | some c => if enabled then some (c.cache_vehicle_result vehicle_result key now) else some c
        | none => none
      (.ok vehicle_result, cache2)

/-! ## Helper lemmas -/

/-- `pyLower` preserves emptiness, so two strings equal up to case agree on
the truthiness test `if engine:` of the key builder. -/
theorem pyLower_empty_iff {x y : String} (h : pyLower x = pyLower y) :
    x = "" ↔ y = "" := by
  have hlen : x.data.length = y.data.length := by
    have h2 : x.data.map Char.toLower = y.data.map Char.toLower := congrArg String.data h
    calc x.data.length = (x.data.map Char.toLower).length := (List.length_map _ _).symm
      _ = (y.data.map Char.toLower).length := by rw [h2]
      _ = y.data.length := List.length_map _ _
  constructor
  · intro hx
    have h0 : x.data.length = 0 := by rw [hx]; rfl
    have hy : y.data.length = 0 := by omega
    cases y with
    | mk dy =>
      cases dy with
      | nil => rfl
      | cons a t => simp at hy
  · intro hy
    have h0 : y.data.length = 0 := by rw [hy]; rfl
    have hx : x.data.length = 0 := by omega
    cases x with
    | mk dx =>
      cases dx with
      | nil => rfl
      | cons a t => simp at hx

/-- One `add_snapshot` keeps the history within a positive bound. -/
theorem PriceInfo.add_snapshot_length_le (p : PriceInfo) (s : PriceStockSnapshot)
    (hmax : 1 ≤ p.max_history_entries) :
    (((p.add_snapshot s).price_history.length : ℤ)) ≤ p.max_history_entries := by
  unfold add_snapshot
  simp only
  split
  · rename_i hgt
    unfold pySliceFrom
    rw [if_neg (by omega)]
    simp only [List.length_drop, Int.neg_neg, List.length_append, List.length_cons,
      List.length_nil] at hgt ⊢
    omega
  · rename_i hle
    simp only [List.length_append, List.length_cons, List.length_nil] at hle ⊢
    push_cast at hle ⊢
    omega

/-- `getLast?` of a cons, phrased through `Option.or`. -/
theorem getLast?_cons_or (s : PriceStockSnapshot) (t : List PriceStockSnapshot) :
    (s :: t).getLast? = t.getLast?.or (some s) := by
  cases t with
  | nil => simp
  | cons b t' =>
    rw [List.getLast?_cons_cons]
    rcases hgl : (b :: t').getLast? with _ | x
    · exact absurd hgl (by simp)
    · simp [Option.or]

/-- Invariant of a whole `add_snapshot` sequence: bounded history and
`current_snapshot` tracking the last appended snapshot. -/
theorem PriceInfo.addAll_bound_current (l : List PriceStockSnapshot) (p : PriceInfo)
    (hmax : 1 ≤ p.max_history_entries)
    (hlen : ((p.price_history.length : ℤ)) ≤ p.max_history_entries) :
    (((p.addAll l).price_history.length : ℤ)) ≤ p.max_history_entries ∧
      (p.addAll l).current_snapshot = l.getLast?.or p.current_snapshot := by
  induction l generalizing p with
  | nil => simpa [addAll] using hlen
  | cons s t ih =>
    have hstep := ih (p.add_snapshot s) hmax (p.add_snapshot_length_le s hmax)
    have hmaxeq : (p.add_snapshot s).max_history_entries = p.max_history_entries := rfl
    have hcur : (p.add_snapshot s).current_snapshot = some s := rfl
    refine ⟨?_, ?_⟩
    · simpa [addAll, hmaxeq] using hstep.1
    · have h2 := hstep.2
      rw [hcur] at h2
      have : (p.addAll (s :: t)).current_snapshot = t.getLast?.or (some s) := by
        simpa [addAll] using h2
      rw [this, getLast?_cons_or, Option.or_assoc]
      simp [Option.or]

/-! ## Claim theorems -/

/-- C2 (counterexample): a `PriceInfo` with `max_history_entries = 0` is
constructible (the field is an unconstrained `int`), and a single
`add_snapshot` then leaves `len(price_history) = 1 > 0`, because the
truncation `price_history[-0:]` keeps the whole list.  This refutes
"for every PriceInfo record … len(price_history) <= max_history_entries". -/
theorem add_snapshot_zero_bound_violation :
    ¬ (((PriceInfo.add_snapshot { part_number := "X", max_history_entries := 0 }
          { time_collected := 1 }).price_history.length : ℤ) ≤
        ({ part_number := "X", max_history_entries := 0 } : PriceInfo).max_history_entries) := by
  decide

/-- C2 (amended): for every `PriceInfo` whose `max_history_entries` is
positive and whose history does not already exceed it, any finite sequence
of `add_snapshot` calls keeps `len(price_history) ≤ max_history_entries`,
and `current_snapshot` equals the most recently added snapshot (or stays
the initial value — absent for a fresh record — when no snapshot was
added). -/
theorem priceInfo_history_bounded_current_tracks (l : List PriceStockSnapshot)
    (p : PriceInfo) (hmax : 1 ≤ p.max_history_entries)
    (hlen : ((p.price_history.length : ℤ)) ≤ p.max_history_entries) :
    (((p.addAll l).price_history.length : ℤ)) ≤ p.max_history_entries ∧
      (p.addAll l).current_snapshot = l.getLast?.or p.current_snapshot :=
  PriceInfo.addAll_bound_current l p hmax hlen

/-- C2 (witness): the amended theorem applied to a fresh default record and
two concrete snapshots. -/
theorem priceInfo_history_bounded_witness :
    ((((({ part_number := "X" } : PriceInfo).addAll
        [{ time_collected := 1 }, { time_collected := 2 }]).price_history.length : ℤ)) ≤
      ({ part_number := "X" } : PriceInfo).max_history_entries) ∧
      (({ part_number := "X" } : PriceInfo).addAll
        [{ time_collected := 1 }, { time_collected := 2 }]).current_snapshot =
        ([{ time_collected := 1 }, { time_collected := 2 }] :
          List PriceStockSnapshot).getLast?.or none :=
  priceInfo_history_bounded_current_tracks _ _ (by decide) (by decide)

/-- C8: `extract_from_element` never raises (the embedding is a total
function mirroring the `try/except: return None` wrapper) and returns
absent whenever the element text strips to empty (in particular for empty
or whitespace-only text), is shorter than 3 characters, or contains one of
the UI-noise keywords (`"show"`, `"hide"`, `"expand"`, `"collapse"`,
`"toggle"`). -/
theorem extract_from_element_degenerate_absent (el : PartExtractor.HtmlElement)
    (h : pyStrip el.text = "" ∨ (pyStrip el.text).length < 3 ∨
      PartExtractor.navWords.any
        (fun w => pyContains (pyLower (pyStrip el.text)) w) = true) :
    PartExtractor.extract_from_element el = none := by
  unfold PartExtractor.extract_from_element
  rcases h with h | h | h
  · simp [h]
  · simp [h]
  · by_cases h0 : pyStrip el.text = "" ∨ (pyStrip el.text).length < 3
    · rcases h0 with h0 | h0 <;> simp [h0]
    · push_neg at h0
      simp [h0.1, h0.2, h]

/-- C8 (witness): a whitespace-only element is rejected. -/
theorem extract_from_element_degenerate_witness :
    pyStrip "  " = "" ∧
      PartExtractor.extract_from_element { text := "  " } = none :=
  ⟨by decide, extract_from_element_degenerate_absent { text := "  " } (Or.inl (by decide))⟩

/-- C9 (counterexample): the cache key is not case-insensitive in the
`year` argument — the source lower-cases make, model, engine and category
but joins `year` verbatim — so two case variants of the same year string
produce different keys. -/
theorem cache_key_year_not_case_insensitive :
    pyLower "202A" = pyLower "202a" ∧
      PartCache.generate_vehicle_cache_key "honda" "civic" "202A" none none ≠
        PartCache.generate_vehicle_cache_key "honda" "civic" "202a" none none := by
  decide

/-- The optional key component respects case-equivalence: equal lowerings
give the same contribution (emptiness is preserved by `pyLower`). -/
theorem optKeyPart_ci {a b : Option String} (h : a.map pyLower = b.map pyLower) :
    PartCache.optKeyPart a = PartCache.optKeyPart b := by
  rcases a with _ | x <;> rcases b with _ | y
  · rfl
  · simp at h
  · simp at h
  · have hx : pyLower x = pyLower y := by simpa using h
    have hxe := pyLower_empty_iff hx
    unfold PartCache.optKeyPart
    by_cases h0 : x = ""
    · simp [h0, hxe.mp h0]
    · simp [h0, hxe.not.mp h0, hx]

/-- C9 (amended): `generate_vehicle_cache_key` is a pure (hence
deterministic) function, case-insensitive in make, model and the optional
engine and category (the year is included verbatim; callers pass
`str(year)`, a digit string, which has no case variants). -/
theorem cache_key_deterministic_ci (m m' mo mo' y : String) (e e' c c' : Option String)
    (hm : pyLower m = pyLower m') (hmo : pyLower mo = pyLower mo')
    (he : e.map pyLower = e'.map pyLower) (hc : c.map pyLower = c'.map pyLower) :
    PartCache.generate_vehicle_cache_key m mo y e c =
      PartCache.generate_vehicle_cache_key m' mo' y e' c' := by
  unfold PartCache.generate_vehicle_cache_key
  rw [hm, hmo, optKeyPart_ci he, optKeyPart_ci hc]

/-- C9 (witness): the amended theorem at the spec's own example. -/
theorem cache_key_deterministic_ci_witness :
    pyLower "Honda" = pyLower "HONDA" ∧ pyLower "Civic" = pyLower "CIVIC" ∧
      PartCache.generate_vehicle_cache_key "Honda" "Civic" "2020" none none =
        PartCache.generate_vehicle_cache_key "HONDA" "CIVIC" "2020" none none :=
  ⟨by decide, by decide,
    cache_key_deterministic_ci _ _ _ _ _ _ _ _ _ (by decide) (by decide) rfl rfl⟩

/-- A concrete result envelope used by the collision claim. -/
def sampleResult : VehiclePartsResult :=
  { make := "HONDA", year := 2020, model := "CIVIC", carcode := "1447",
    category := "Brake & Wheel Hub", parts := [], count := 0 }

/-- C10: the key builder conflates the optional arguments: supplying
`"brakes"` as the engine (no category) and supplying the same `"brakes"`
as the category (no engine) are distinct queries yielding the identical
key, and a result cached under the first key is returned by a lookup with
the second. -/
theorem cache_key_engine_category_collision :
    PartCache.generate_vehicle_cache_key "honda" "civic" "2020" (some "brakes") none =
      PartCache.generate_vehicle_cache_key "honda" "civic" "2020" none (some "brakes") ∧
    (some "brakes", (none : Option String)) ≠ ((none : Option String), some "brakes") ∧
    ((({} : PartCache).cache_vehicle_result sampleResult
        (PartCache.generate_vehicle_cache_key "honda" "civic" "2020" (some "brakes") none)
        5).get_vehicle_result
      (PartCache.generate_vehicle_cache_key "honda" "civic" "2020" none (some "brakes"))
      6).1 = some sampleResult := by
  decide

/-- Any result the `try:` body of `lookup_order_status` returns normally is
either a success or carries one of the three tagged failure kinds. -/
theorem lookup_run_ok_shape (e o : String) (b : OrderLookupBehaviour)
    (r : OrderStatusResult) (h : (lookup_order_status_run e o b).1 = .ok r) :
    r.success = true ∨ ∃ err, r.error = some err ∧
      (err.error_type = "ORDER_NOT_FOUND" ∨ err.error_type = "INVALID_CREDENTIALS" ∨
        err.error_type = "SYSTEM_ERROR") := by
  unfold lookup_order_status_run at h
  split at h
  · simp at h
  · split at h
    · simp at h
    · split at h
      · simp only at h
        cases h
        exact Or.inr ⟨_, rfl, Or.inr (Or.inr rfl)⟩
      · split at h
        · simp at h
        · split at h
          · simp at h
          · simp only at h
            cases h
            exact Or.inl rfl
          · simp only at h
            cases h
            refine Or.inr ⟨_, rfl, ?_⟩
            split_ifs <;>
              first
                | exact Or.inl rfl
                | exact Or.inr (Or.inl rfl)
                | exact Or.inr (Or.inr rfl)

/-- C6: for every input and every transport/parsing behaviour,
`lookup_order_status` returns a tagged `OrderStatusResult` (the embedding
is total: the catch-all `except` converts any raise into a result), and on
failure the error kind is exactly one of `ORDER_NOT_FOUND`,
`INVALID_CREDENTIALS`, `SYSTEM_ERROR`. -/
theorem lookup_order_status_tagged (e o : String) (b : OrderLookupBehaviour) :
    (lookup_order_status e o b).success = true ∨
      ∃ err, (lookup_order_status e o b).error = some err ∧
        (err.error_type = "ORDER_NOT_FOUND" ∨ err.error_type = "INVALID_CREDENTIALS" ∨
          err.error_type = "SYSTEM_ERROR") := by
  unfold lookup_order_status
  rcases hrun : (lookup_order_status_run e o b).1 with exc | r
  · exact Or.inr ⟨_, rfl, Or.inr (Or.inr rfl)⟩
  · simpa using lookup_run_ok_shape e o b r hrun

/-- A concrete order used by the order-status counterexample. -/
def sampleOrder : OrderStatus := { order_number := "123456", status := "Shipped" }

/-- A behaviour in which every transport and parsing step succeeds. -/
def okLookupBehaviour : OrderLookupBehaviour :=
  { getResponse := .ok "page"
    nck := fun _ => some "tok"
    postResponse := .ok "resp"
    parseOrder := fun _ => .ok (some sampleOrder)
    errorMessage := fun _ => "" }

/-- C5 (counterexample): `lookup_order_status` — one of the Account/Order
Service operations named by the claim — performs no `is_authenticated`
check at all (the source method never reads the flag, which is why the
embedding takes no authentication argument): called on an unauthenticated
client it issues two network requests and completes normally instead of
failing with `AuthenticationRequired` before any network call. -/
theorem lookup_order_status_ignores_auth :
    lookup_order_status_calls "a@b.com" "123456" okLookupBehaviour = 2 ∧
      (lookup_order_status "a@b.com" "123456" okLookupBehaviour).success = true := by
  constructor
  · rfl
  · rfl

/-- C5 (amended): the five authenticated account operations
(`get_saved_addresses`, `get_saved_vehicles`, `get_account_activity`,
`get_order_history`, `add_external_order`) check `is_authenticated` as
their first statement and, when it is false, fail with the
"Authentication required …" error having issued zero network calls (the
scripted-transport index is returned unchanged); `lookup_order_status`
(and `request_order_list`) are unauthenticated operations exempt from the
guard. -/
theorem account_ops_auth_guard (sc : Script) (pr : AccountParsing) (i : ℕ)
    (f : Option OrderHistoryFilter) (e o : String) :
    get_saved_addresses false sc pr i =
      (.error "Authentication required for accessing saved addresses", i) ∧
    get_saved_vehicles false sc pr i =
      (.error "Authentication required for accessing saved vehicles", i) ∧
    get_account_activity false sc pr i =
      (.error "Authentication required for account activity", i) ∧
    get_order_history false f sc pr i =
      (.error "Authentication required for accessing order history", i) ∧
    add_external_order false e o sc pr i =
      (.error "Authentication required for adding external orders", i) :=
  ⟨rfl, rfl, rfl, rfl, rfl⟩

/-- The part-number loop result is `"Unknown"` or passed the digit/length
filter. -/
theorem pickPartNumber_shape (cands : List (Option (List Char))) :
    pickPartNumber cands = "Unknown" ∨
      ((pickPartNumber cands).data.any Char.isDigit = true ∧
        4 ≤ (pickPartNumber cands).length) := by
  induction cands with
  | nil => exact Or.inl rfl
  | cons c rest ih =>
    cases c with
    | none => simpa [pickPartNumber] using ih
    | some cand =>
      by_cases h : acceptPart cand = true
      · right
        have h2 := h
        simp only [acceptPart, Bool.and_eq_true, decide_eq_true_eq] at h2
        simp only [pickPartNumber, h, if_true]
        exact ⟨h2.1, h2.2⟩
      · simpa [pickPartNumber, h] using ih

/-- C7 (amended): in `extract_from_element` a part-number candidate is
accepted only if it contains at least one digit and has length ≥ 4, with
default `"Unknown"` otherwise — in particular extraction from the text
`"hello world"` yields part number `"Unknown"` — whereas the table-row
variant (see the counterexample) imposes no digit requirement. -/
theorem extract_part_number_filtered (el : PartExtractor.HtmlElement) (p : PartInfo)
    (h : PartExtractor.extract_from_element el = some p) :
    (p.part_number = "Unknown" ∨
      (p.part_number.data.any Char.isDigit = true ∧ 4 ≤ p.part_number.length)) ∧
    (PartExtractor.extract_from_element { text := "hello world" }).map
      PartInfo.part_number = some "Unknown" := by
  refine ⟨?_, by decide⟩
  unfold PartExtractor.extract_from_element at h
  dsimp only at h
  split at h
  · simp at h
  · split at h
    · simp at h
    · simp only [Option.some_inj] at h
      have hpn : p.part_number =
          pickPartNumber (partNumberSearches (pyStrip el.text).data) := by
        rw [← h]
      rw [hpn]
      exact pickPartNumber_shape _

/-- The record `extract_from_element` produces for the text
`"hello world"`. -/
def helloWorldPart : PartInfo := { name := "hello world", part_number := "Unknown" }

/-- C7 (witness): the amended theorem applied at the spec's example. -/
theorem extract_part_number_filtered_witness :
    PartExtractor.extract_from_element { text := "hello world" } = some helloWorldPart ∧
      ((helloWorldPart.part_number = "Unknown" ∨
        (helloWorldPart.part_number.data.any Char.isDigit = true ∧
          4 ≤ helloWorldPart.part_number.length)) ∧
      (PartExtractor.extract_from_element { text := "hello world" }).map
        PartInfo.part_number = some "Unknown") :=
  ⟨by decide,
    extract_part_number_filtered { text := "hello world" } helloWorldPart (by decide)⟩

/-- C7 (counterexample): `extract_from_table_row` accepts the digit-free
candidate `"ABCDEF"` (any case-sensitive `[A-Z0-9-]{6,}` token in a
`$`-free cell is taken verbatim, with no digit filter), refuting the claim
that part-number extraction accepts a candidate only if it contains at
least one digit. -/
theorem table_row_digitless_part_number :
    (PartExtractor.extract_from_table_row ["ABCDEF"] {}).map PartInfo.part_number =
      some "ABCDEF" ∧ "ABCDEF".data.any Char.isDigit = false := by
  decide

/-- Deleting a key from a dict with distinct keys removes every binding for
it. -/
theorem pyDictGet_del_self {β : Type} (d : List (String × β)) (k : String)
    (hnd : (dictKeys d).Nodup) : pyDictGet (pyDictDel d k) k = none := by
  induction d with
  | nil => rfl
  | cons kv rest ih =>
    rcases List.nodup_cons.mp hnd with ⟨hk, hrest⟩
    by_cases h : kv.1 = k
    · unfold pyDictDel
      rw [List.eraseP_cons_of_pos (by simpa using h)]
      have hfind : List.find? (fun kv' => kv'.1 = k) rest = none := by
        apply List.find?_eq_none.mpr
        intro kv' hkv'
        simp only [decide_eq_true_eq]
        intro hkk
        refine hk ?_
        have hmem : kv'.1 ∈ List.map Prod.fst rest := List.mem_map_of_mem Prod.fst hkv'
        rw [h, ← hkk]
        exact hmem
      unfold pyDictGet
      rw [hfind]
      rfl
    · unfold pyDictDel at ih ⊢
      rw [List.eraseP_cons_of_neg (by simpa using h)]
      unfold pyDictGet at ih ⊢
      rw [List.find?_cons_of_neg _ (by simpa using h)]
      exact ih hrest

/-- Deleting a present key shrinks the dict by exactly one binding. -/
theorem pyDictDel_length {β : Type} (d : List (String × β)) (k : String) (e : β)
    (hget : pyDictGet d k = some e) : (pyDictDel d k).length + 1 = d.length := by
  induction d with
  | nil => simp [pyDictGet] at hget
  | cons kv rest ih =>
    by_cases h : kv.1 = k
    · unfold pyDictDel
      rw [List.eraseP_cons_of_pos (by simpa using h)]
      simp
    · unfold pyDictGet at hget
      rw [List.find?_cons_of_neg _ (by simpa using h)] at hget
      unfold pyDictDel at ih ⊢
      rw [List.eraseP_cons_of_neg (by simpa using h)]
      simpa using ih hget

/-- C1: `is_expired` holds exactly when `now - cached_at` strictly exceeds
the TTL; and `get_part` on a key whose entry is expired returns absent
after deleting exactly that entry, so the cache shrinks by exactly one and
a second `get_part` on the same key again returns absent without further
change. -/
theorem part_cache_expiry_get (c : PartCache) (k : String) (e : CachedPartInfo) (now : ℕ)
    (hnd : (dictKeys c.parts).Nodup)
    (hget : pyDictGet c.parts k = some e)
    (hexp : e.is_expired now = true) :
    (∀ (e' : CachedPartInfo) (now' : ℕ) (ttl : ℤ),
      e'.is_expired now' ttl = true ↔ (now' : ℤ) - e'.cached_at > timedeltaHours ttl) ∧
    (c.get_part k now).1 = none ∧
    pyDictGet (c.get_part k now).2.parts k = none ∧
    (c.get_part k now).2.parts.length + 1 = c.parts.length ∧
    (c.get_part k now).2.get_part k now = (none, (c.get_part k now).2) := by
  have hres : c.get_part k now = (none, { c with parts := pyDictDel c.parts k }) := by
    unfold PartCache.get_part
    rw [hget]
    simp [hexp]
  have hdel : pyDictGet (pyDictDel c.parts k) k = none := pyDictGet_del_self c.parts k hnd
  refine ⟨?_, ?_, ?_, ?_, ?_⟩
  · intro e' now' ttl
    simp [CachedPartInfo.is_expired]
  · rw [hres]
  · rw [hres]
    exact hdel
  · rw [hres]
    exact pyDictDel_length c.parts k e hget
  · rw [hres]
    unfold PartCache.get_part
    rw [hdel]

/-- A concrete static part record. -/
def samplePart : PartInfo := { name := "Oil Filter", part_number := "K" }

/-- A one-entry part cache whose entry was cached at time `0`. -/
def staleCache : PartCache :=
  { parts := [("K", { part_info := samplePart, cached_at := 0, last_accessed := 0 })] }

/-- C1 (witness): the theorem at a concrete cache whose single entry is
just past the 12-hour default TTL. -/
theorem part_cache_expiry_get_witness :
    (∀ (e' : CachedPartInfo) (now' : ℕ) (ttl : ℤ),
      e'.is_expired now' ttl = true ↔ (now' : ℤ) - e'.cached_at > timedeltaHours ttl) ∧
    (staleCache.get_part "K" 43200000001).1 = none ∧
    pyDictGet (staleCache.get_part "K" 43200000001).2.parts "K" = none ∧
    (staleCache.get_part "K" 43200000001).2.parts.length + 1 = staleCache.parts.length ∧
    (staleCache.get_part "K" 43200000001).2.get_part "K" 43200000001 =
      (none, (staleCache.get_part "K" 43200000001).2) :=
  part_cache_expiry_get staleCache "K"
    { part_info := samplePart, cached_at := 0, last_accessed := 0 } 43200000001
    (by decide) (by decide) (by decide)

/-- A hit returned by `get_vehicle_result` is the stored envelope of some
cache entry. -/
theorem get_vehicle_result_hit (c : PartCache) (key : String) (now : ℕ)
    (r : VehiclePartsResult) (h : (c.get_vehicle_result key now).1 = some r) :
    ∃ kv ∈ c.vehicle_results, r = kv.2.result := by
  unfold PartCache.get_vehicle_result at h
  split at h
  · rename_i entry heq
    have hmem : ∃ kv ∈ c.vehicle_results, kv.2 = entry := by
      unfold pyDictGet at heq
      rcases hff : List.find? (fun kv => kv.1 = key) c.vehicle_results with _ | kv0
      · rw [hff] at heq
        simp at heq
      · rw [hff] at heq
        simp only [Option.map_some', Option.some_inj] at heq
        exact ⟨kv0, List.mem_of_find?_eq_some hff, heq⟩
    rcases hmem with ⟨kv, hkv, hkve⟩
    split at h
    · simp only [CachedVehiclePartsResult.access, Option.some_inj] at h
      exact ⟨kv, hkv, by rw [← h, hkve]⟩
    · simp at h
  · simp at h

/-- A hit of the initial cache consultation is a stored envelope. -/
theorem catalogLookup_hit (cache : Option PartCache) (enabled : Bool) (key : String)
    (now : ℕ) (r : VehiclePartsResult)
    (h : (catalogLookup cache enabled key now).1 = some r) :
    ∃ c, cache = some c ∧ ∃ kv ∈ c.vehicle_results, r = kv.2.result := by
  unfold catalogLookup at h
  rcases cache with _ | c
  · simp at h
  · dsimp only at h
    refine ⟨c, rfl, ?_⟩
    by_cases he : enabled = true
    · rw [if_pos he] at h
      refine get_vehicle_result_hit c key now r ?_
      rcases hQ : c.get_vehicle_result key now with ⟨res, c1⟩
      rw [hQ] at h
      simpa using h
    · rw [if_neg he] at h
      simp at h

/-- C4 (amended): under any transport failure, `get_parts_by_category`
either serves a cache hit or raises the categorized
`"Failed to fetch parts for category: …"` error, and in both cases the
final cache state is exactly the state after the initial cache
consultation — the only mutations observable after a failed call are the
lazy deletion of an expired consulted entry and the access bookkeeping of
a hit, both performed by that initial lookup; moreover (for any behaviour)
every returned envelope is well-formed (`count = len(parts)`), given that
the cached envelopes are. -/
theorem get_parts_by_category_error_path
    (cache : Option PartCache) (enabled : Bool) (make : String) (year : ℤ)
    (model carcode category : String) (b : CatalogBehaviour) (now : ℕ) (err : String)
    (hwf : ∀ c, cache = some c → ∀ kv ∈ c.vehicle_results,
      kv.2.result.count = kv.2.result.parts.length)
    (herr : b.api = .error err) :
    ((get_parts_by_category cache enabled make year model carcode category b now).2 =
      (catalogLookup cache enabled
        (PartCache.generate_vehicle_cache_key make model (toString year)
          (some carcode) (some category)) now).2) ∧
    ((get_parts_by_category cache enabled make year model carcode category b now).1 =
        .error ("Failed to fetch parts for category: " ++ err) ∨
      ∃ r, (get_parts_by_category cache enabled make year model carcode category b now).1 =
          .ok r ∧ r.count = r.parts.length) ∧
    (∀ (b' : CatalogBehaviour) (r : VehiclePartsResult),
      (get_parts_by_category cache enabled make year model carcode category b' now).1 =
        .ok r → r.count = r.parts.length) := by
  have main : ∀ (b' : CatalogBehaviour),
      (∃ r, (catalogLookup cache enabled
          (PartCache.generate_vehicle_cache_key make model (toString year)
            (some carcode) (some category)) now).1 = some r ∧
        get_parts_by_category cache enabled make year model carcode category b' now =
          (.ok r, (catalogLookup cache enabled
            (PartCache.generate_vehicle_cache_key make model (toString year)
              (some carcode) (some category)) now).2) ∧
        r.count = r.parts.length) ∨
      ((catalogLookup cache enabled
          (PartCache.generate_vehicle_cache_key make model (toString year)
            (some carcode) (some category)) now).1 = none ∧
        (∀ e, b'.api = .error e →
          get_parts_by_category cache enabled make year model carcode category b' now =
            (.error ("Failed to fetch parts for category: " ++ e),
              (catalogLookup cache enabled
                (PartCache.generate_vehicle_cache_key make model (toString year)
                  (some carcode) (some category)) now).2)) ∧
        (∀ r, (get_parts_by_category cache enabled make year model carcode category b' now).1 =
          .ok r → r.count = r.parts.length)) := by
    intro b'
    unfold get_parts_by_category
    rcases hL : catalogLookup cache enabled
        (PartCache.generate_vehicle_cache_key make model (toString year)
          (some carcode) (some category)) now with ⟨res, c1⟩
    rcases res with _ | r
    · right
      refine ⟨?_, ?_, ?_⟩
      · rfl
      · intro e he
        dsimp only
        rw [hL, he]
      · intro r hr
        dsimp only at hr
        rw [hL] at hr
        dsimp only at hr
        rcases hapi : b'.api with e | html?
        · rw [hapi] at hr
          simp at hr
        · rw [hapi] at hr
          dsimp only at hr
          simp only [Except.ok.injEq] at hr
          rw [← hr]
    · left
      have hhit := catalogLookup_hit cache enabled _ now r (by rw [hL])
      rcases hhit with ⟨c, hc, kv, hkv, hr⟩
      refine ⟨r, rfl, ?_, ?_⟩
      · dsimp only
        rw [hL]
      · rw [hr]
        exact hwf c hc kv hkv
  rcases main b with ⟨r, hres, heq, hwfr⟩ | ⟨hnone, herrf, _⟩
  · refine ⟨by rw [heq], Or.inr ⟨r, by rw [heq], hwfr⟩, ?_⟩
    intro b' r' hr'
    rcases main b' with ⟨r2, _, heq2, hwf2⟩ | ⟨_, _, hok2⟩
    · rw [heq2] at hr'
      simp only [Except.ok.injEq] at hr'
      rw [← hr']
      exact hwf2
    · exact hok2 r' hr'
  · have h1 := herrf err herr
    refine ⟨by rw [h1], Or.inl (by rw [h1]), ?_⟩
    intro b' r' hr'
    rcases main b' with ⟨r2, _, heq2, hwf2⟩ | ⟨_, _, hok2⟩
    · rw [heq2] at hr'
      simp only [Except.ok.injEq] at hr'
      rw [← hr']
      exact hwf2
    · exact hok2 r' hr'

/-- The cache key `get_parts_by_category` computes for the query
(`"m"`, 2020, `"mo"`, carcode `"cc"`, category `"cat"`). -/
def staleKey : String :=
  PartCache.generate_vehicle_cache_key "m" "mo" (toString (2020 : ℤ))
    (some "cc") (some "cat")

/-- A part cache holding one expired result envelope under that key. -/
def staleResultCache : PartCache :=
  { vehicle_results :=
      [(staleKey,
        { result := sampleResult, cache_key := staleKey,
          cached_at := 0, last_accessed := 0 })] }

/-- C4 (counterexample): with caching enabled, a call that consults the
cache (deleting the expired entry for its key) and then fails on the
transport leaves the cache in a different state than before the call — the
expired entry is gone — so an error path does observably mutate the cache,
refuting "on every error path the cache state is left exactly as it was
before the call". -/
theorem get_parts_error_path_mutates :
    (get_parts_by_category (some staleResultCache) true "m" 2020 "mo" "cc" "cat"
        { api := .error "boom" } 43200000001).2 ≠ some staleResultCache ∧
    (get_parts_by_category (some staleResultCache) true "m" 2020 "mo" "cc" "cat"
        { api := .error "boom" } 43200000001).1 =
      .error "Failed to fetch parts for category: boom" :=
  ⟨by decide, rfl⟩

/-- C4 (witness): the amended theorem at a concrete empty cache and a
failing transport. -/
theorem get_parts_by_category_error_path_witness :
    ((get_parts_by_category (some {}) true "m" 2020 "mo" "cc" "cat"
        { api := .error "x" } 0).2 =
      (catalogLookup (some {}) true
        (PartCache.generate_vehicle_cache_key "m" "mo" (toString (2020 : ℤ))
          (some "cc") (some "cat")) 0).2) ∧
    ((get_parts_by_category (some {}) true "m" 2020 "mo" "cc" "cat"
        { api := .error "x" } 0).1 =
        .error ("Failed to fetch parts for category: " ++ "x") ∨
      ∃ r, (get_parts_by_category (some {}) true "m" 2020 "mo" "cc" "cat"
          { api := .error "x" } 0).1 = .ok r ∧ r.count = r.parts.length) ∧
    (∀ (b' : CatalogBehaviour) (r : VehiclePartsResult),
      (get_parts_by_category (some {}) true "m" 2020 "mo" "cc" "cat" b' 0).1 =
        .ok r → r.count = r.parts.length) :=
  get_parts_by_category_error_path (some {}) true "m" 2020 "mo" "cc" "cat"
    { api := .error "x" } 0 "x"
    (by
      intro c hc kv hkv
      cases hc
      simp at hkv)
    rfl

/-- Inserting a fresh key appends the binding (Python dicts keep insertion
order). -/
theorem pyDictSet_absent {β : Type} (d : List (String × β)) (k : String) (v : β)
    (h : pyDictGet d k = none) : pyDictSet d k v = d ++ [(k, v)] := by
  induction d with
  | nil => rfl
  | cons kv rest ih =>
    unfold pyDictGet at h
    by_cases hk : kv.1 = k
    · rw [List.find?_cons_of_pos _ (by simpa using hk)] at h
      simp at h
    · rw [List.find?_cons_of_neg _ (by simpa using hk)] at h
      unfold pyDictSet
      rw [if_neg hk]
      rw [ih h]
      rfl

/-- An absent key is the key of no binding. -/
theorem not_key_of_get_none {β : Type} (d : List (String × β)) (k : String)
    (h : pyDictGet d k = none) : ∀ kv ∈ d, kv.1 ≠ k := by
  intro kv hkv
  unfold pyDictGet at h
  rcases hf : List.find? (fun kv => kv.1 = k) d with _ | kv0
  · have := List.find?_eq_none.mp hf kv hkv
    simpa using this
  · rw [hf] at h
    simp at h

/-- `find?` on a list whose only binding for `k` is `(k, v)` returns it. -/
theorem findKey_unique {β : Type} (d : List (String × β)) (k : String) (v : β)
    (huniq : ∀ kv ∈ d, kv.1 = k → kv = (k, v)) (hmem : (k, v) ∈ d) :
    List.find? (fun kv => kv.1 = k) d = some (k, v) := by
  induction d with
  | nil => simp at hmem
  | cons kv rest ih =>
    by_cases hk : kv.1 = k
    · rw [List.find?_cons_of_pos _ (by simpa using hk)]
      rw [huniq kv (List.mem_cons_self _ _) hk]
    · rw [List.find?_cons_of_neg _ (by simpa using hk)]
      refine ih (fun kv' hkv' => huniq kv' (List.mem_cons_of_mem _ hkv')) ?_
      rcases List.mem_cons.mp hmem with heq | hrest
      · exact absurd (congrArg Prod.fst heq.symm) (by simpa using hk)
      · exact hrest

/-- Core facts about one batch eviction on data with distinct keys whose
binding for `k` is `(k, p)`: the filter drops exactly `batch` entries (the
oldest by sort order), and when `p` is strictly newest among the others the
binding `(k, p)` survives. -/
theorem evict_filter_facts (data' : List (String × PriceInfo)) (k : String) (p : PriceInfo)
    (hnd : (data'.map Prod.fst).Nodup)
    (huniq : ∀ kv ∈ data', kv.1 = k → kv = (k, p))
    (hmem : (k, p) ∈ data')
    (hnewest : ∀ kv ∈ data', kv ≠ (k, p) → evictionKey kv.2 < evictionKey p)
    (batch : ℕ) (hbatch : batch ≤ data'.length - 1) (hlen2 : 2 ≤ data'.length) :
    (data'.filter (fun kv =>
      ¬ (((data'.insertionSort evictionLE).take batch).map Prod.fst).contains kv.1)).length =
        data'.length - batch ∧
    pyDictGet (data'.filter (fun kv =>
      ¬ (((data'.insertionSort evictionLE).take batch).map Prod.fst).contains kv.1)) k =
      some p := by
  set sorted := data'.insertionSort evictionLE with hsorted
  have hperm : List.Perm sorted data' := by
    rw [hsorted]
    exact List.perm_insertionSort _ _
  have hsort : List.Sorted evictionLE sorted := by
    rw [hsorted]
    exact List.sorted_insertionSort _ _
  have hlen_sorted : sorted.length = data'.length := hperm.length_eq
  have hnds : (sorted.map Prod.fst).Nodup :=
    ((List.Perm.map Prod.fst hperm).nodup_iff).mpr hnd
  set tk := List.take batch sorted with htk
  set dr := List.drop batch sorted with hdr
  have hsplit : sorted = tk ++ dr := by
    rw [htk, hdr, List.take_append_drop]
  have hcross : ∀ a ∈ tk, ∀ b ∈ dr, evictionLE a b := by
    have hPW : List.Pairwise evictionLE (tk ++ dr) := by
      rw [← hsplit]
      exact hsort
    exact (List.pairwise_append.mp hPW).2.2
  have hdisj : (tk.map Prod.fst).Disjoint (dr.map Prod.fst) := by
    refine List.disjoint_of_nodup_append ?_
    rw [← List.map_append, ← hsplit]
    exact hnds
  have hfilter_take : tk.filter (fun kv => ¬ ((tk.map Prod.fst).contains kv.1)) = [] := by
    apply List.filter_eq_nil.mpr
    intro kv hkv
    simp only [Bool.not_eq_true, decide_eq_true_eq, Decidable.not_not, List.elem_iff]
    exact List.mem_map_of_mem Prod.fst hkv
  have hfilter_drop : dr.filter (fun kv => ¬ ((tk.map Prod.fst).contains kv.1)) = dr := by
    apply List.filter_eq_self.mpr
    intro kv hkv
    simp only [Bool.not_eq_true, decide_eq_true_eq, List.elem_iff]
    intro hin
    exact hdisj hin (List.mem_map_of_mem Prod.fst hkv)
  have hfilter_sorted : sorted.filter (fun kv => ¬ ((tk.map Prod.fst).contains kv.1)) = dr := by
    conv_lhs => rw [hsplit]
    rw [List.filter_append, hfilter_take, hfilter_drop]
    rfl
  have hdrlen : dr.length = data'.length - batch := by
    rw [hdr, List.length_drop, hlen_sorted]
  have hfl : (data'.filter (fun kv => ¬ ((tk.map Prod.fst).contains kv.1))).length =
      data'.length - batch := by
    have hp2 := List.Perm.filter (fun kv => ¬ ((tk.map Prod.fst).contains kv.1)) hperm
    rw [← hp2.length_eq, hfilter_sorted, hdrlen]
  have hknot : k ∉ tk.map Prod.fst := by
    intro hk
    rcases List.mem_map.mp hk with ⟨kv', hkv', hfst⟩
    have hkvmem : kv' ∈ data' := hperm.mem_iff.mp (by rw [hsplit]; exact List.mem_append_left _ hkv')
    have hkv'eq : kv' = (k, p) := huniq kv' hkvmem hfst
    subst hkv'eq
    have hdroppos : 0 < dr.length := by
      rw [hdrlen]
      omega
    obtain ⟨y, hy⟩ := List.exists_mem_of_length_pos hdroppos
    have hle : evictionKey p ≤ evictionKey y.2 := hcross _ hkv' y hy
    have hymem : y ∈ data' := hperm.mem_iff.mp (by rw [hsplit]; exact List.mem_append_right _ hy)
    have hyne : y ≠ (k, p) := by
      intro he
      subst he
      exact hdisj hk (List.mem_map_of_mem Prod.fst hy)
    have hlt : evictionKey y.2 < evictionKey p := hnewest y hymem hyne
    omega
  refine ⟨hfl, ?_⟩
  have hmemfil : (k, p) ∈ data'.filter (fun kv => ¬ ((tk.map Prod.fst).contains kv.1)) := by
    rw [List.mem_filter]
    refine ⟨hmem, ?_⟩
    simp only [Bool.not_eq_true, decide_eq_true_eq, List.elem_iff]
    simpa using hknot
  have huniq' : ∀ kv ∈ data'.filter (fun kv => ¬ ((tk.map Prod.fst).contains kv.1)),
      kv.1 = k → kv = (k, p) :=
    fun kv hkv => huniq kv (List.mem_filter.mp hkv).1
  unfold pyDictGet
  rw [findKey_unique _ k p huniq' hmemfil]
  rfl

/-- C3 (amended): when `cache_pricing` inserts a fresh entry into a
pricing cache at capacity (`len = max_entries ≥ 1`), the batch eviction
removes exactly `max(1, n // 5)` entries — the oldest 20% by
last-collection time, where `n` is the post-insert count — so the
resulting size `n - max(1, n // 5)` stays strictly above
`max_entries - evicted_batch_size`; and the just-inserted entry survives
provided its last-collection time is strictly newer than every other
entry's (without that proviso it can be evicted — see the
counterexample). -/
theorem pricing_cache_eviction (c : PricingCache) (k : String) (p : PriceInfo)
    (hnd : (dictKeys c.pricing_data).Nodup)
    (hnew : pyDictGet c.pricing_data k = none)
    (hcap : (c.pricing_data.length : ℤ) = c.max_entries)
    (hmax : 1 ≤ c.max_entries)
    (hnewest : ∀ kv ∈ c.pricing_data, evictionKey kv.2 < evictionKey p) :
    (c.cache_pricing k p).pricing_data.length =
      c.pricing_data.length + 1 - max 1 ((c.pricing_data.length + 1) / 5) ∧
    c.max_entries - ((max 1 ((c.pricing_data.length + 1) / 5) : ℕ) : ℤ) <
      ((c.cache_pricing k p).pricing_data.length : ℤ) ∧
    pyDictGet (c.cache_pricing k p).pricing_data k = some p := by
  have hn1 : 1 ≤ c.pricing_data.length := by
    have h1 : (1 : ℤ) ≤ (c.pricing_data.length : ℤ) := by
      rw [hcap]
      exact hmax
    exact_mod_cast h1
  have hins : pyDictSet c.pricing_data k p = c.pricing_data ++ [(k, p)] :=
    pyDictSet_absent _ _ _ hnew
  have hlenD : (c.pricing_data ++ [(k, p)]).length = c.pricing_data.length + 1 := by
    simp
  have htrig : ((c.pricing_data ++ [(k, p)]).length : ℤ) > c.max_entries := by
    rw [hlenD, ← hcap]
    push_cast
    omega
  have hres : (c.cache_pricing k p).pricing_data =
      (c.pricing_data ++ [(k, p)]).filter (fun kv =>
        ¬ ((((c.pricing_data ++ [(k, p)]).insertionSort evictionLE).take
          (max 1 ((c.pricing_data ++ [(k, p)]).length / 5))).map Prod.fst).contains kv.1) := by
    unfold PricingCache.cache_pricing
    dsimp only
    rw [hins, if_pos htrig]
    unfold PricingCache._evict_old_entries
    rfl
  have hknotin : k ∉ c.pricing_data.map Prod.fst := by
    intro hk
    rcases List.mem_map.mp hk with ⟨kv, hkv, hfst⟩
    exact not_key_of_get_none _ _ hnew kv hkv hfst
  have hnd' : ((c.pricing_data ++ [(k, p)]).map Prod.fst).Nodup := by
    rw [List.map_append]
    refine List.Nodup.append hnd (List.nodup_singleton _) ?_
    intro x hx hx'
    simp only [List.map_cons, List.map_nil, List.mem_singleton] at hx'
    subst hx'
    exact hknotin hx
  have huniq : ∀ kv ∈ c.pricing_data ++ [(k, p)], kv.1 = k → kv = (k, p) := by
    intro kv hkv hk1
    rcases List.mem_append.mp hkv with hkd | hlast
    · exact absurd hk1 (not_key_of_get_none _ _ hnew kv hkd)
    · simpa using hlast
  have hmemnew : (k, p) ∈ c.pricing_data ++ [(k, p)] :=
    List.mem_append_right _ (by simp)
  have hnewest' : ∀ kv ∈ c.pricing_data ++ [(k, p)], kv ≠ (k, p) →
      evictionKey kv.2 < evictionKey p := by
    intro kv hkv hne
    rcases List.mem_append.mp hkv with hkd | hlast
    · exact hnewest kv hkd
    · exact absurd (by simpa using hlast) hne
  have hlen2 : 2 ≤ (c.pricing_data ++ [(k, p)]).length := by
    rw [hlenD]
    omega
  have hbatch : max 1 ((c.pricing_data ++ [(k, p)]).length / 5) ≤
      (c.pricing_data ++ [(k, p)]).length - 1 := by
    rw [hlenD]
    omega
  obtain ⟨hL, hG⟩ := evict_filter_facts (c.pricing_data ++ [(k, p)]) k p hnd' huniq
    hmemnew hnewest' (max 1 ((c.pricing_data ++ [(k, p)]).length / 5)) hbatch hlen2
  refine ⟨?_, ?_, ?_⟩
  · rw [hres, hL, hlenD]
  · rw [hres, hL, hlenD, ← hcap]
    have hb := hbatch
    rw [hlenD] at hb
    push_cast
    omega
  · rw [hres]
    exact hG

/-- A cached pricing record whose snapshot was collected at time 10. -/
def oldSnapInfo : PriceInfo :=
  { part_number := "A", current_snapshot := some { time_collected := 10 } }

/-- A pricing record to insert whose snapshot is older (time 5). -/
def newSnapInfo : PriceInfo :=
  { part_number := "B", current_snapshot := some { time_collected := 5 } }

/-- A pricing cache at its capacity of one entry. -/
def smallPricingCache : PricingCache :=
  { pricing_data := [("A", oldSnapInfo)], max_entries := 1 }

/-- C3 (counterexample): inserting an entry whose last-collection time is
the oldest in the cache triggers eviction that removes the just-inserted
entry itself (the batch is chosen purely by collection time), refuting
"the entry just inserted by that call is never among the evicted
entries". -/
theorem cache_pricing_evicts_just_inserted :
    pyDictGet (smallPricingCache.cache_pricing "B" newSnapInfo).pricing_data "B" = none ∧
    pyDictGet (smallPricingCache.cache_pricing "B" newSnapInfo).pricing_data "A" =
      some oldSnapInfo := by
  decide

/-- A cached pricing record with an old snapshot (time 1). -/
def oldestSnapInfo : PriceInfo :=
  { part_number := "A", current_snapshot := some { time_collected := 1 } }

/-- A strictly newer pricing record (time 99). -/
def newestSnapInfo : PriceInfo :=
  { part_number := "B", current_snapshot := some { time_collected := 99 } }

/-- A one-entry pricing cache at capacity holding the old record. -/
def fullPricingCache : PricingCache :=
  { pricing_data := [("A", oldestSnapInfo)], max_entries := 1 }

/-- C3 (witness): the amended theorem at a concrete at-capacity cache and
a strictly-newest inserted entry. -/
theorem pricing_cache_eviction_witness :
    (fullPricingCache.cache_pricing "B" newestSnapInfo).pricing_data.length =
      fullPricingCache.pricing_data.length + 1 -
        max 1 ((fullPricingCache.pricing_data.length + 1) / 5) ∧
    fullPricingCache.max_entries -
        ((max 1 ((fullPricingCache.pricing_data.length + 1) / 5) : ℕ) : ℤ) <
      ((fullPricingCache.cache_pricing "B" newestSnapInfo).pricing_data.length : ℤ) ∧
    pyDictGet (fullPricingCache.cache_pricing "B" newestSnapInfo).pricing_data "B" =
      some newestSnapInfo :=
  pricing_cache_eviction fullPricingCache "B" newestSnapInfo
    (by decide) (by decide) (by decide) (by decide) (by decide)
